import Mathlib

/-!
# Verification of the geo-risk scoring engine

Shallow embedding of the core risk-scoring and caching components of the
repository (`src/backend/app/services/risk_engine.py` and
`src/backend/app/services/caching_service.py`), together with theorems that
settle the specification claims about them.

Modelling conventions:
* Python floats are modelled as real numbers (`ℝ`) in the risk engine and as
  rationals (`ℚ`) in the caching layer (whose arithmetic is exact rounding and
  comparison only).  `round(x, n)` is modelled through Mathlib's `round`
  (round-half-up instead of Python's round-half-even; no settled claim touches
  a tie).
* `time.time()` wall-clock readings are explicit parameters (`elapsed_ms`,
  `now`).
* The engine's transparent distance cache (a pure memoisation of
  `calculate_distance_km`, `risk_engine.py` lines 140-162) is elided:
  it stores exactly the value that would be recomputed, so the cached and
  uncached functions coincide.
* Python dictionaries are association lists with unique keys; iteration order
  is insertion order, as in Python 3.7+.
-/

set_option maxHeartbeats 1000000
set_option linter.unusedVariables false

/-- Closed enumeration of hazard types (`app/models/__init__.py`). -/
inductive HazardType where
  | earthquake
  | flood
  | fire
  | storm
deriving DecidableEq, Repr

/-- The string value of a hazard type (`HazardType(str, enum.Enum)`). -/
def HazardType.value : HazardType → String
  | .earthquake => "earthquake"
  | .flood => "flood"
  | .fire => "fire"
  | .storm => "storm"

/-- Risk level categories (`app/models/__init__.py`). -/
inductive RiskLevel where
  | low
  | moderate
  | high
  | critical
deriving DecidableEq, Repr

/-- Distance-decay models (`risk_engine.py` lines 20-24). -/
inductive ProximityDecayModel where
  | linear
  | exponential
  | inverse_square
deriving DecidableEq

/-- A geographic coordinate (`risk_engine.py` lines 27-38).  The range checks
of `__post_init__` raise on out-of-range input; the claims settled here do not
depend on them, so the type carries the raw coordinates. -/
structure GeographicPoint where
  latitude : ℝ
  longitude : ℝ

/-- A hazard source (`risk_engine.py` lines 41-46). -/
structure HazardSource where
  location : GeographicPoint
  intensity : ℝ
  influence_radius_km : ℝ

/-- A historical hazard event (`risk_engine.py` lines 49-54). -/
structure HistoricalEvent where
  severity : ℝ
  days_ago : ℝ
  impact_radius_km : ℝ

/-- Algorithm configuration (`risk_engine.py` lines 57-87).  Only the fields
the scoring algorithms read are modelled. -/
structure AssessmentConfig where
  seismic_weight_fault_proximity : ℝ
  seismic_weight_historical : ℝ
  seismic_weight_magnitude : ℝ
  flood_weight_elevation : ℝ
  flood_weight_water_proximity : ℝ
  flood_weight_historical : ℝ
  flood_weight_drainage : ℝ
  fire_weight_vegetation : ℝ
  fire_weight_climate : ℝ
  fire_weight_historical : ℝ
  fire_weight_proximity : ℝ
  storm_weight_historical_patterns : ℝ
  storm_weight_geographic_exposure : ℝ
  storm_weight_seasonal_factors : ℝ
  composite_aggregation_method : String

/-- The default `AssessmentConfig()` values (`risk_engine.py` lines 61-83). -/
def defaultConfig : AssessmentConfig :=
  ⟨0.40, 0.25, 0.35,
   0.35, 0.30, 0.20, 0.15,
   0.35, 0.25, 0.20, 0.20,
   0.40, 0.30, 0.30,
   "weighted_average"⟩

/-- `math.radians`: degrees to radians. -/
noncomputable def degRadians (deg : ℝ) : ℝ := deg * Real.pi / 180

/-- Clamp to the score range: `max(0, min(100, x))`. -/
noncomputable def clamp100 (x : ℝ) : ℝ := max 0 (min 100 x)

/-- `round(x, 2)`: round to two decimal places. -/
noncomputable def round2 (x : ℝ) : ℝ := (round (x * 100) : ℤ) / 100

/-- Haversine great-circle distance (`calculate_distance_km`,
`risk_engine.py` lines 118-163, with the transparent memoisation elided). -/
noncomputable def calculate_distance_km (point1 point2 : GeographicPoint) : ℝ :=
  let lon1 := degRadians point1.longitude
  let lat1 := degRadians point1.latitude
  let lon2 := degRadians point2.longitude
  let lat2 := degRadians point2.latitude
  let dlon := lon2 - lon1
  let dlat := lat2 - lat1
  let a := Real.sin (dlat / 2) ^ 2 + Real.cos lat1 * Real.cos lat2 * Real.sin (dlon / 2) ^ 2
  let c := 2 * Real.arcsin (Real.sqrt a)
  6371 * c

/-- Distance-decay impact factor (`calculate_proximity_impact`,
`risk_engine.py` lines 165-209). -/
noncomputable def calculate_proximity_impact (distance_km max_distance_km : ℝ)
    (decay_model : ProximityDecayModel) : ℝ :=
  if max_distance_km ≤ distance_km then 0
  else
    let normalized := distance_km / max_distance_km
    match decay_model with
    | .linear => 1 - normalized
    | .exponential => Real.exp (-3 * normalized)
    | .inverse_square => if distance_km < 1 then 1 else max 0 (1 - normalized ^ 2)

/-- `time_weight = exp(-years_ago / decay_years)` for one event
(`risk_engine.py` lines 774-776). -/
noncomputable def eventTimeWeight (decay_years : ℝ) (event : HistoricalEvent) : ℝ :=
  Real.exp (-(event.days_ago / 365) / decay_years)

/-- `severity_score = (severity / 10) * 100` for one event
(`risk_engine.py` line 779). -/
noncomputable def eventSeverityScore (event : HistoricalEvent) : ℝ :=
  event.severity / 10 * 100

/-- `_calculate_historical_weighting` (`risk_engine.py` lines 747-793).  The
accumulation loop is rendered as sums over the event list; `location` is an
unused parameter in the source as well. -/
noncomputable def calculate_historical_weighting (events : List HistoricalEvent)
    (location : GeographicPoint) (decay_years : ℝ) : ℝ :=
  match events with
  | [] => 0
  | _ :: _ =>
    let weighted_sum := (events.map fun e => eventSeverityScore e * eventTimeWeight decay_years e).sum
    let total_weight := (events.map (eventTimeWeight decay_years)).sum
    if total_weight = 0 then 0
    else
      let weighted_score := weighted_sum / total_weight
      let frequency_boost := min ((events.length : ℝ) / 10) 0.2
      min (weighted_score * (1 + frequency_boost)) 100

/-- One iteration of the nearest-fault loop (`risk_engine.py` lines 264-268):
keep the strictly closer fault's distance and intensity. -/
noncomputable def nearestFaultStep (location : GeographicPoint) (acc : ℝ × ℝ)
    (fault : HazardSource) : ℝ × ℝ :=
  let distance := calculate_distance_km location fault.location
  if distance < acc.1 then (distance, fault.intensity) else acc

/-- The fault-proximity component (`risk_engine.py` lines 258-278).  The loop
starts from `(inf, 0.0)`, so the first fault always replaces the initial
accumulator; the fold therefore starts from the first fault's data.  Note the
influence radius passed to the decay function is that of `fault_lines[0]`,
not of the nearest fault. -/
noncomputable def fault_proximity_score (location : GeographicPoint) :
    List HazardSource → ℝ
  | [] => 0
  | f0 :: rest =>
    let nearest := rest.foldl (nearestFaultStep location)
      (calculate_distance_km location f0.location, f0.intensity)
    calculate_proximity_impact nearest.1 f0.influence_radius_km .exponential *
      (nearest.2 / 10) * 100

/-- The magnitude-potential component (`risk_engine.py` lines 283-288):
`(max fault intensity / 10) ** 1.5 * 100`. -/
noncomputable def magnitude_score : List HazardSource → ℝ
  | [] => 0
  | f0 :: rest =>
    let max_magnitude := rest.foldl (fun m f => max m f.intensity) f0.intensity
    (max_magnitude / 10) ^ (1.5 : ℝ) * 100

/-- The soil-amplified, weighted seismic base risk (`risk_engine.py`
lines 290-302). -/
noncomputable def seismicBaseRisk (config : AssessmentConfig) (location : GeographicPoint)
    (fault_lines : List HazardSource) (historical_events : List HistoricalEvent)
    (soil_amplification : ℝ) : ℝ :=
  fault_proximity_score location fault_lines * soil_amplification *
      config.seismic_weight_fault_proximity +
    calculate_historical_weighting historical_events location 10 * soil_amplification *
      config.seismic_weight_historical +
    magnitude_score fault_lines * soil_amplification * config.seismic_weight_magnitude

/-- Seismic risk before clamping and rounding (`risk_engine.py`
lines 304-306): base risk times the building-code mitigation factor. -/
noncomputable def seismicPreRisk (config : AssessmentConfig) (location : GeographicPoint)
    (fault_lines : List HazardSource) (historical_events : List HistoricalEvent)
    (soil_amplification building_code_rating : ℝ) : ℝ :=
  seismicBaseRisk config location fault_lines historical_events soil_amplification *
    (1 - building_code_rating / 20)

/-- `calculate_seismic_risk` (`risk_engine.py` lines 215-318).  Returns the
rounded, clamped score and the component breakdown; the wall-clock
`calculation_time_ms` measurement is the explicit `elapsed_ms` parameter. -/
noncomputable def calculate_seismic_risk (config : AssessmentConfig)
    (location : GeographicPoint) (fault_lines : List HazardSource)
    (historical_events : List HistoricalEvent)
    (soil_amplification building_code_rating elapsed_ms : ℝ) :
    ℝ × List (String × ℝ) :=
  (round2 (clamp100 (seismicPreRisk config location fault_lines historical_events
      soil_amplification building_code_rating)),
   [("fault_proximity_score", fault_proximity_score location fault_lines * soil_amplification),
    ("historical_score",
      calculate_historical_weighting historical_events location 10 * soil_amplification),
    ("magnitude_score", magnitude_score fault_lines * soil_amplification),
    ("soil_amplification", soil_amplification),
    ("building_code_mitigation", building_code_rating / 20),
    ("calculation_time_ms", elapsed_ms)])

/-- The flood elevation component (`risk_engine.py` line 374). -/
noncomputable def elevation_score (elevation_meters : ℝ) : ℝ :=
  100 * Real.exp (-elevation_meters / 30)

/-- Worst-case weighted proximity over a list of sources: the body of the
water-body loop (`risk_engine.py` lines 376-392) and the fire-source loop
(lines 492-507), both of which take the maximum of
`proximity_impact * (intensity / 10)` and scale by 100. -/
noncomputable def maxWeightedProximity (location : GeographicPoint) :
    List HazardSource → ℝ
  | [] => 0
  | w0 :: rest =>
    let impactOf := fun (w : HazardSource) =>
      calculate_proximity_impact (calculate_distance_km location w.location)
        w.influence_radius_km .exponential * (w.intensity / 10)
    rest.foldl (fun m w => max m (impactOf w)) (impactOf w0) * 100

/-- The flood drainage component (`risk_engine.py` line 398). -/
noncomputable def drainage_score (drainage_quality : ℝ) : ℝ :=
  (10 - drainage_quality) / 10 * 100

/-- The flood rainfall factor (`risk_engine.py` line 402). -/
noncomputable def rainfall_factor (annual_rainfall_mm : ℝ) : ℝ :=
  min (annual_rainfall_mm / 5000) 1

/-- The weighted flood base risk (`risk_engine.py` lines 404-410). -/
noncomputable def floodBaseRisk (config : AssessmentConfig) (location : GeographicPoint)
    (elevation_meters : ℝ) (water_bodies : List HazardSource)
    (historical_events : List HistoricalEvent) (drainage_quality : ℝ) : ℝ :=
  elevation_score elevation_meters * config.flood_weight_elevation +
    maxWeightedProximity location water_bodies * config.flood_weight_water_proximity +
    calculate_historical_weighting historical_events location 10 *
      config.flood_weight_historical +
    drainage_score drainage_quality * config.flood_weight_drainage

/-- Flood risk before clamping and rounding (`risk_engine.py` line 413). -/
noncomputable def floodPreRisk (config : AssessmentConfig) (location : GeographicPoint)
    (elevation_meters : ℝ) (water_bodies : List HazardSource)
    (historical_events : List HistoricalEvent)
    (drainage_quality annual_rainfall_mm : ℝ) : ℝ :=
  floodBaseRisk config location elevation_meters water_bodies historical_events
      drainage_quality *
    (0.5 + rainfall_factor annual_rainfall_mm * 0.5)

/-- `calculate_flood_risk` (`risk_engine.py` lines 324-427). -/
noncomputable def calculate_flood_risk (config : AssessmentConfig)
    (location : GeographicPoint) (elevation_meters : ℝ)
    (water_bodies : List HazardSource) (historical_events : List HistoricalEvent)
    (drainage_quality annual_rainfall_mm elapsed_ms : ℝ) :
    ℝ × List (String × ℝ) :=
  (round2 (clamp100 (floodPreRisk config location elevation_meters water_bodies
      historical_events drainage_quality annual_rainfall_mm)),
   [("elevation_score", round2 (elevation_score elevation_meters)),
    ("water_proximity_score", round2 (maxWeightedProximity location water_bodies)),
    ("historical_score",
      round2 (calculate_historical_weighting historical_events location 10)),
    ("drainage_score", round2 (drainage_score drainage_quality)),
    ("rainfall_factor", round2 (rainfall_factor annual_rainfall_mm)),
    ("calculation_time_ms", elapsed_ms)])

/-- The wildfire vegetation component (`risk_engine.py` line 479). -/
noncomputable def vegetation_score (vegetation_density : ℝ) : ℝ :=
  vegetation_density / 10 * 100

/-- The wildfire climate/aridity component (`risk_engine.py` line 482). -/
noncomputable def climate_score (climate_aridity_index : ℝ) : ℝ :=
  climate_aridity_index / 10 * 100

/-- The wildfire temperature multiplier (`risk_engine.py` line 486). -/
noncomputable def temperature_factor (temperature_avg_c : ℝ) : ℝ :=
  1 + max 0 ((temperature_avg_c - 20) / 20)

/-- The wildfire wind multiplier (`risk_engine.py` line 490). -/
noncomputable def wind_factor (wind_speed_kmh : ℝ) : ℝ :=
  1 + min (wind_speed_kmh / 100) 1

/-- The weighted wildfire base risk (`risk_engine.py` lines 512-518). -/
noncomputable def wildfireBaseRisk (config : AssessmentConfig) (location : GeographicPoint)
    (vegetation_density climate_aridity_index : ℝ)
    (historical_events : List HistoricalEvent) (fire_sources : List HazardSource) : ℝ :=
  vegetation_score vegetation_density * config.fire_weight_vegetation +
    climate_score climate_aridity_index * config.fire_weight_climate +
    calculate_historical_weighting historical_events location 10 *
      config.fire_weight_historical +
    maxWeightedProximity location fire_sources * config.fire_weight_proximity

/-- Wildfire risk before clamping and rounding (`risk_engine.py` line 521). -/
noncomputable def wildfirePreRisk (config : AssessmentConfig) (location : GeographicPoint)
    (vegetation_density climate_aridity_index : ℝ)
    (historical_events : List HistoricalEvent) (fire_sources : List HazardSource)
    (temperature_avg_c wind_speed_kmh : ℝ) : ℝ :=
  wildfireBaseRisk config location vegetation_density climate_aridity_index
      historical_events fire_sources *
    temperature_factor temperature_avg_c * wind_factor wind_speed_kmh

/-- `calculate_wildfire_risk` (`risk_engine.py` lines 433-536). -/
noncomputable def calculate_wildfire_risk (config : AssessmentConfig)
    (location : GeographicPoint) (vegetation_density climate_aridity_index : ℝ)
    (historical_events : List HistoricalEvent) (fire_sources : List HazardSource)
    (temperature_avg_c wind_speed_kmh elapsed_ms : ℝ) :
    ℝ × List (String × ℝ) :=
  (round2 (clamp100 (wildfirePreRisk config location vegetation_density
      climate_aridity_index historical_events fire_sources temperature_avg_c
      wind_speed_kmh)),
   [("vegetation_score", round2 (vegetation_score vegetation_density)),
    ("climate_score", round2 (climate_score climate_aridity_index)),
    ("proximity_score", round2 (maxWeightedProximity location fire_sources)),
    ("historical_score",
      round2 (calculate_historical_weighting historical_events location 10)),
    ("temperature_factor", round2 (temperature_factor temperature_avg_c)),
    ("wind_factor", round2 (wind_factor wind_speed_kmh)),
    ("calculation_time_ms", elapsed_ms)])

/-- The storm historical component with the frequency/severity enhancement
(`risk_engine.py` lines 587-606). -/
noncomputable def storm_historical_score (events : List HistoricalEvent)
    (location : GeographicPoint) : ℝ :=
  let historical_score := calculate_historical_weighting events location 10
  match events with
  | [] => historical_score
  | e0 :: rest =>
    let avg_severity := (events.map HistoricalEvent.severity).sum / (events.length : ℝ)
    let severity_factor := avg_severity / 10
    let max_days := rest.foldl (fun m e => max m e.days_ago) e0.days_ago
    let years_span := max (max_days / 365) 1
    let frequency := (events.length : ℝ) / years_span
    let frequency_factor := min (frequency / 5) 1
    max historical_score (severity_factor * 50 + frequency_factor * 50)

/-- The fixed monthly seasonal weights (`risk_engine.py` line 611). -/
noncomputable def seasonal_weights : List ℝ :=
  [0.3, 0.4, 0.7, 0.8, 0.9, 1.0, 0.9, 0.9, 1.0, 0.9, 0.7, 0.4]

/-- The storm geographic-exposure component (`risk_engine.py` line 615). -/
noncomputable def exposure_score (geographic_exposure : ℝ) : ℝ :=
  geographic_exposure / 10 * 100

/-- The storm coastal-proximity multiplier (`risk_engine.py` line 620). -/
noncomputable def coastal_factor (coastal_distance_km : ℝ) : ℝ :=
  1 + Real.exp (-coastal_distance_km / 50)

/-- The storm elevation multiplier (`risk_engine.py` line 623). -/
noncomputable def elevation_factor (elevation_meters : ℝ) : ℝ :=
  1 + max 0 ((20 - elevation_meters) / 20)

/-- The weighted storm base risk (`risk_engine.py` lines 626-630).  The month
index is a natural number; the source would raise `IndexError` outside 0-11,
here `getD` returns 0 (no settled claim leaves the valid range). -/
noncomputable def stormBaseRisk (config : AssessmentConfig) (location : GeographicPoint)
    (historical_events : List HistoricalEvent) (current_season_index : ℕ)
    (geographic_exposure : ℝ) : ℝ :=
  storm_historical_score historical_events location *
      config.storm_weight_historical_patterns +
    exposure_score geographic_exposure * config.storm_weight_geographic_exposure +
    seasonal_weights.getD current_season_index 0 * 100 *
      config.storm_weight_seasonal_factors

/-- Storm risk before clamping and rounding (`risk_engine.py` line 633). -/
noncomputable def stormPreRisk (config : AssessmentConfig) (location : GeographicPoint)
    (historical_events : List HistoricalEvent)
    (coastal_distance_km elevation_meters : ℝ) (current_season_index : ℕ)
    (geographic_exposure : ℝ) : ℝ :=
  stormBaseRisk config location historical_events current_season_index
      geographic_exposure *
    coastal_factor coastal_distance_km *
    elevation_factor elevation_meters ^ (0.5 : ℝ)

/-- `calculate_storm_risk` (`risk_engine.py` lines 542-647). -/
noncomputable def calculate_storm_risk (config : AssessmentConfig)
    (location : GeographicPoint) (historical_events : List HistoricalEvent)
    (coastal_distance_km elevation_meters : ℝ) (current_season_index : ℕ)
    (geographic_exposure elapsed_ms : ℝ) :
    ℝ × List (String × ℝ) :=
  (round2 (clamp100 (stormPreRisk config location historical_events
      coastal_distance_km elevation_meters current_season_index geographic_exposure)),
   [("historical_score", round2 (storm_historical_score historical_events location)),
    ("exposure_score", round2 (exposure_score geographic_exposure)),
    ("seasonal_factor", round2 (seasonal_weights.getD current_season_index 0)),
    ("coastal_factor", round2 (coastal_factor coastal_distance_km)),
    ("elevation_factor", round2 (elevation_factor elevation_meters)),
    ("calculation_time_ms", elapsed_ms)])

/-- Association-list lookup: Python `dict[key]` / `dict.get(key)`. -/
def dictLookup {K V : Type} [DecidableEq K] : List (K × V) → K → Option V
  | [], _ => none
  | (a, b) :: t, k => if a = k then some b else dictLookup t k

/-- `_determine_risk_level` (`risk_engine.py` lines 795-812). -/
noncomputable def determine_risk_level (risk_score : ℝ) : RiskLevel :=
  if risk_score < 25 then .low
  else if risk_score < 50 then .moderate
  else if risk_score < 75 then .high
  else .critical

/-- Python `max()` over a non-empty collection of reals (`[]` is unreachable
at the call site, where the score dict is non-empty). -/
noncomputable def listMax : List ℝ → ℝ
  | [] => 0
  | x :: t => t.foldl max x

/-- The composite breakdown dict (`risk_engine.py` lines 688 and 734-739):
either the empty-input marker or the full result record. -/
inductive CompositeBreakdown where
  | error (msg : String)
  | result (individual_scores : List (HazardType × ℝ))
      (weights_used : List (HazardType × ℝ))
      (aggregation_method : String) (calculation_time_ms : ℝ)

/-- `calculate_composite_risk` (`risk_engine.py` lines 653-741).  The
`eval`-built probability product of the source is the fold
`(1 - Π (1 - pᵢ)) * 100` it evaluates to (see spec §9 design note). -/
noncomputable def calculate_composite_risk (config : AssessmentConfig)
    (hazard_scores : List (HazardType × ℝ))
    (hazard_weights : Option (List (HazardType × ℝ))) (elapsed_ms : ℝ) :
    ℝ × RiskLevel × CompositeBreakdown :=
  match hazard_scores with
  | [] => (0, .low, .error "No hazard scores provided")
  | _ :: _ =>
    let weights : List (HazardType × ℝ) := match hazard_weights with
      | none => hazard_scores.map fun p => (p.1, 1 / (hazard_scores.length : ℝ))
      | some w => w
    let weight_sum : ℝ := (weights.map Prod.snd).sum
    let normalized_weights : List (HazardType × ℝ) :=
      if 0 < weight_sum then weights.map fun p => (p.1, p.2 / weight_sum)
      else weights.map fun p => (p.1, 1 / (weights.length : ℝ))
    let method := config.composite_aggregation_method
    let raw_score :=
      if method = "weighted_average" then
        (hazard_scores.map fun p => p.2 * ((dictLookup normalized_weights p.1).getD 0)).sum
      else if method = "max" then listMax (hazard_scores.map Prod.snd)
      else if method = "probabilistic" then
        (1 - (hazard_scores.map fun p => 1 - p.2 / 100).prod) * 100
      else
        (hazard_scores.map fun p => p.2 * ((dictLookup normalized_weights p.1).getD 0)).sum
    let composite_score := clamp100 raw_score
    (round2 composite_score, determine_risk_level composite_score,
     .result hazard_scores normalized_weights method elapsed_ms)

/-- A scorer breakdown with the wall-clock measurement removed, used to state
determinism of everything except `calculation_time_ms`. -/
def breakdownSansTime (b : List (String × ℝ)) : List (String × ℝ) :=
  b.filter fun p => decide (p.1 ≠ "calculation_time_ms")

/-- A composite breakdown with the wall-clock measurement zeroed. -/
def CompositeBreakdown.sansTime : CompositeBreakdown → CompositeBreakdown
  | .error msg => .error msg
  | .result a b c _ => .result a b c 0

/-- `round(x, 4)`: coordinate rounding in the caching layer
(`caching_service.py` lines 39-40). -/
def round4 (x : ℚ) : ℚ := (round (x * 10000) : ℤ) / 10000

/-- `sorted(h.value for h in hazard_types)` (`caching_service.py` line 43).
Python's stable sort of strings agrees with the canonical sorted list of the
underlying multiset, since equal-comparing strings are equal. -/
def sortedHazardValues (hazard_types : List HazardType) : List String :=
  Multiset.sort (· ≤ ·) (hazard_types.map HazardType.value : Multiset String)

/-- The components of the cache-key string built by `CacheKey.risk_assessment`
(`caching_service.py` lines 18-62).  The source concatenates
`"risk_assessment:lat:{lat}:lon:{lon}:hazards:{h}[:factors:{f}]"`; the fixed
markers and Python's injective float/JSON serialisation make the string an
injective function of these parts, so key equality is modelled as equality of
the parts.  The sorted factor item list is likewise a function of the factor
multiset, kept here as the multiset. -/
structure RiskAssessmentKey where
  lat_part : ℚ
  lon_part : ℚ
  hazards_part : List String
  factors_part : Option (Multiset (String × ℚ))
deriving DecidableEq

/-- `CacheKey.risk_assessment` (`caching_service.py` lines 18-62): round the
coordinates to 4 decimals, sort the hazard values, and include the sorted
custom factors only when the dict is non-falsy (`if risk_factors:`). -/
def CacheKey_risk_assessment (latitude longitude : ℚ)
    (hazard_types : List HazardType)
    (risk_factors : Option (List (String × ℚ))) : RiskAssessmentKey :=
  ⟨round4 latitude, round4 longitude, sortedHazardValues hazard_types,
   match risk_factors with
   | none => none
   | some factors =>
     if factors = [] then none else some (factors : Multiset (String × ℚ))⟩

/-- One cached item (`caching_service.py` lines 152-156). -/
structure CacheItem (V : Type) where
  value : V
  expires_at : ℚ
  created_at : ℚ
deriving DecidableEq

/-- The state of `InMemoryCache` (`caching_service.py` lines 72-91), keyed
generically (the source uses the derived key strings).  `clock` and
`last_access` are ghost bookkeeping added to the embedding: `clock` counts the
recency-updating operations (successful gets and sets) and `last_access`
records, for each present key, the clock value of its most recent successful
get or set.  They influence nothing the code computes. -/
structure CacheState (K V : Type) where
  max_size : ℕ
  default_ttl : ℚ
  cache : List (K × CacheItem V)
  access_order : List K
  clock : ℕ
  last_access : List (K × ℕ)

/-- Python `del dict[key]` guarded by a membership test: drop the first entry
with the given key, no-op when absent. -/
def dictErase {K V : Type} [DecidableEq K] : List (K × V) → K → List (K × V)
  | [], _ => []
  | (a, b) :: t, k => if a = k then t else (a, b) :: dictErase t k

/-- Python `dict[key] = value`: update the existing entry in place or append
a new one. -/
def dictInsert {K V : Type} [DecidableEq K] : List (K × V) → K → V → List (K × V)
  | [], k, v => [(k, v)]
  | (a, b) :: t, k, v => if a = k then (a, v) :: t else (a, b) :: dictInsert t k v

/-- `InMemoryCache.get` (`caching_service.py` lines 93-123): miss on absent
key; expired entries (`now > expires_at`) are removed and miss; a hit moves
the key to the most-recent end of the access order and returns the value. -/
def cacheGet {K V : Type} [DecidableEq K] (s : CacheState K V) (now : ℚ)
    (key : K) : Option V × CacheState K V :=
  match dictLookup s.cache key with
  | none => (none, s)
  | some item =>
    if item.expires_at < now then
      (none,
       { s with cache := dictErase s.cache key,
                access_order := s.access_order.erase key,
                last_access := dictErase s.last_access key })
    else
      (some item.value,
       { s with access_order := s.access_order.erase key ++ [key],
                last_access := dictErase s.last_access key ++ [(key, s.clock)],
                clock := s.clock + 1 })

/-- The eviction step at the top of `InMemoryCache.set` (`caching_service.py`
lines 145-149): when the store is full and the key is new, pop the head of the
access order (the least-recently-used key) and delete its entry. -/
def cacheEvictIfFull {K V : Type} [DecidableEq K] (s : CacheState K V)
    (key : K) : CacheState K V :=
  if s.max_size ≤ s.cache.length ∧ (dictLookup s.cache key).isNone = true then
    match s.access_order with
    | [] => s
    | lru :: rest =>
      { s with cache := dictErase s.cache lru,
               access_order := rest,
               last_access := dictErase s.last_access lru }
  else s

/-- The storage step at the bottom of `InMemoryCache.set` (`caching_service.py`
lines 151-161): write the entry and move the key to the most-recent end of the
access order. -/
def cacheStore {K V : Type} [DecidableEq K] (s1 : CacheState K V) (key : K)
    (item : CacheItem V) : CacheState K V :=
  { s1 with cache := dictInsert s1.cache key item,
            access_order := s1.access_order.erase key ++ [key],
            last_access := dictErase s1.last_access key ++ [(key, s1.clock)],
            clock := s1.clock + 1 }

/-- `InMemoryCache.set` (`caching_service.py` lines 125-161): a falsy
(`None`/`0`) TTL falls back to the default; evict the least-recently-used
entry when full and the key is new; then store. -/
def cacheSet {K V : Type} [DecidableEq K] (s : CacheState K V) (now : ℚ)
    (key : K) (value : V) (ttl_seconds : Option ℚ) : CacheState K V :=
  let ttl := match ttl_seconds with
    | none => s.default_ttl
    | some t => if t = 0 then s.default_ttl else t
  cacheStore (cacheEvictIfFull s key) key ⟨value, now + ttl, now⟩

/-- `InMemoryCache.delete` (`caching_service.py` lines 163-169). -/
def cacheDelete {K V : Type} [DecidableEq K] (s : CacheState K V) (key : K) :
    CacheState K V :=
  { s with cache := dictErase s.cache key,
           access_order := s.access_order.erase key,
           last_access := dictErase s.last_access key }

/-- One cache operation with its wall-clock instant. -/
inductive CacheOp (K V : Type) where
  | get (now : ℚ) (key : K)
  | set (now : ℚ) (key : K) (value : V) (ttl_seconds : Option ℚ)
  | del (key : K)

/-- State transition of one cache operation (the value returned by `get` is
dropped). -/
def cacheStep {K V : Type} [DecidableEq K] (s : CacheState K V) :
    CacheOp K V → CacheState K V
  | .get now key => (cacheGet s now key).2
  | .set now key value ttl => cacheSet s now key value ttl
  | .del key => cacheDelete s key

/-- A freshly constructed `InMemoryCache(max_size, default_ttl_seconds)`. -/
def initCache (K V : Type) (max_size : ℕ) (default_ttl : ℚ) : CacheState K V :=
  ⟨max_size, default_ttl, [], [], 0, []⟩

/-- Run a sequence of operations from a fresh cache. -/
def runCache {K V : Type} [DecidableEq K] (max_size : ℕ) (default_ttl : ℚ)
    (ops : List (CacheOp K V)) : CacheState K V :=
  ops.foldl cacheStep (initCache K V max_size default_ttl)

/-- The ghost recency stamp of a key (0 for keys never touched). -/
def lastAccessOf {K V : Type} [DecidableEq K] (s : CacheState K V) (k : K) : ℕ :=
  (dictLookup s.last_access k).getD 0

/-- The keys currently stored in the cache dict. -/
def cacheKeys {K V : Type} (s : CacheState K V) : List K := s.cache.map Prod.fst

/-- The state of `CachingService` (`caching_service.py` lines 202-216):
the underlying in-memory cache plus the hit/miss counters.  Cached assessment
values (`Dict[str, Any]`) are modelled as association lists. -/
structure CachingServiceState where
  cache : CacheState RiskAssessmentKey (List (String × ℚ))
  hit_count : ℕ
  miss_count : ℕ

/-- Python truthiness of `Optional[Dict]`: `None` and the empty dict are
falsy. -/
def truthyDict (d : Option (List (String × ℚ))) : Bool :=
  match d with
  | none => false
  | some [] => false
  | some (_ :: _) => true

/-- `CachingService.get_risk_assessment` (`caching_service.py` lines 218-245):
derive the key, query the cache, and count a hit exactly when the result is
truthy (`if result:`), a miss otherwise; the raw result is returned either
way. -/
def CachingService_get_risk_assessment (s : CachingServiceState) (now : ℚ)
    (latitude longitude : ℚ) (hazard_types : List HazardType)
    (risk_factors : Option (List (String × ℚ))) :
    Option (List (String × ℚ)) × CachingServiceState :=
  let key := CacheKey_risk_assessment latitude longitude hazard_types risk_factors
  let r := cacheGet s.cache now key
  if truthyDict r.1 then (r.1, ⟨r.2, s.hit_count + 1, s.miss_count⟩)
  else (r.1, ⟨r.2, s.hit_count, s.miss_count + 1⟩)

/-- The default configuration with the `"max"` aggregation policy selected. -/
def maxConfig : AssessmentConfig :=
  ⟨0.40, 0.25, 0.35,
   0.35, 0.30, 0.20, 0.15,
   0.35, 0.25, 0.20, 0.20,
   0.40, 0.30, 0.30,
   "max"⟩

/-- The default configuration with the `"probabilistic"` aggregation policy
selected. -/
def probConfig : AssessmentConfig :=
  ⟨0.40, 0.25, 0.35,
   0.35, 0.30, 0.20, 0.15,
   0.35, 0.25, 0.20, 0.20,
   0.40, 0.30, 0.30,
   "probabilistic"⟩

/-- The standing invariant of the in-memory cache: the access order lists
exactly the stored keys, without duplicates, sorted from least- to
most-recently used (by the ghost recency stamps, which are defined and below
the clock for every listed key), and the store respects the size bound. -/
structure CacheInv {K V : Type} [DecidableEq K] (s : CacheState K V) : Prop where
  order_nodup : s.access_order.Nodup
  order_perm : s.access_order.Perm (cacheKeys s)
  la_order : ∀ k ∈ s.access_order, ∃ n, dictLookup s.last_access k = some n ∧ n < s.clock
  la_nodup : (s.last_access.map Prod.fst).Nodup
  sorted : s.access_order.Pairwise fun a b => lastAccessOf s a < lastAccessOf s b
  size_le : 1 ≤ s.max_size → s.cache.length ≤ s.max_size

/-- A concrete derived key used to exercise the caching service. -/
def c10Key : RiskAssessmentKey :=
  CacheKey_risk_assessment 0 0 [HazardType.earthquake] none

/-- A concrete caching-service state holding one unexpired entry whose cached
value is the empty dict. -/
def c10State : CachingServiceState :=
  ⟨⟨1000, 3600, [(c10Key, ⟨[], 100, 0⟩)], [c10Key], 1, [(c10Key, 0)]⟩, 0, 0⟩

/-! ## Helper lemmas about rounding and clamping -/

theorem round_le_of_le {x y : ℝ} (h : x ≤ y) : round x ≤ round y := by
  rw [round_eq, round_eq]
  exact Int.floor_le_floor (by linarith)

theorem round2_le_round2 {x y : ℝ} (h : x ≤ y) : round2 x ≤ round2 y := by
  unfold round2
  have h1 : round (x * 100) ≤ round (y * 100) := round_le_of_le (by linarith)
  have h2 : ((round (x * 100) : ℤ) : ℝ) ≤ ((round (y * 100) : ℤ) : ℝ) :=
    Int.cast_le.mpr h1
  linarith

theorem clamp100_nonneg (x : ℝ) : 0 ≤ clamp100 x := le_max_left _ _

theorem clamp100_le_100 (x : ℝ) : clamp100 x ≤ 100 :=
  max_le (by norm_num) (min_le_left _ _)

theorem clamp100_mono {x y : ℝ} (h : x ≤ y) : clamp100 x ≤ clamp100 y :=
  max_le_max le_rfl (min_le_min le_rfl h)

theorem clamp100_of_bounds {x : ℝ} (h0 : 0 ≤ x) (h1 : x ≤ 100) :
    clamp100 x = x := by
  unfold clamp100
  rw [min_eq_right h1, max_eq_right h0]

theorem round2_zero : round2 0 = 0 := by
  unfold round2
  norm_num

theorem round2_hundred : round2 100 = 100 := by
  unfold round2
  rw [show ((100 : ℝ) * 100) = ((10000 : ℤ) : ℝ) by norm_num, round_intCast]
  norm_num

theorem score_shape (x : ℝ) :
    0 ≤ round2 (clamp100 x) ∧ round2 (clamp100 x) ≤ 100 ∧
      ∃ n : ℤ, round2 (clamp100 x) = (n : ℝ) / 100 := by
  refine ⟨?_, ?_, ⟨round (clamp100 x * 100), rfl⟩⟩
  · have h := round2_le_round2 (clamp100_nonneg x)
    rwa [round2_zero] at h
  · have h := round2_le_round2 (clamp100_le_100 x)
    rwa [round2_hundred] at h

/-! ## C1: scorer output shape -/

/-- **C1**: for every hazard scorer (seismic, flood, wildfire, storm) and all
inputs, the returned risk score lies in [0, 100] and is an exact multiple of
0.01 (rounded to 2 decimals), and the returned component breakdown is
non-empty. -/
theorem claim_C1 (config : AssessmentConfig) (location : GeographicPoint)
    (fault_lines water_bodies fire_sources : List HazardSource)
    (seismic_events flood_events fire_events storm_events : List HistoricalEvent)
    (soil_amplification building_code_rating elevation_meters drainage_quality
      annual_rainfall_mm vegetation_density climate_aridity_index
      temperature_avg_c wind_speed_kmh coastal_distance_km storm_elevation
      geographic_exposure elapsed_ms : ℝ) (current_season_index : ℕ) :
    (0 ≤ (calculate_seismic_risk config location fault_lines seismic_events
          soil_amplification building_code_rating elapsed_ms).1 ∧
      (calculate_seismic_risk config location fault_lines seismic_events
          soil_amplification building_code_rating elapsed_ms).1 ≤ 100 ∧
      (∃ n : ℤ, (calculate_seismic_risk config location fault_lines seismic_events
          soil_amplification building_code_rating elapsed_ms).1 = (n : ℝ) / 100) ∧
      (calculate_seismic_risk config location fault_lines seismic_events
          soil_amplification building_code_rating elapsed_ms).2 ≠ []) ∧
    (0 ≤ (calculate_flood_risk config location elevation_meters water_bodies
          flood_events drainage_quality annual_rainfall_mm elapsed_ms).1 ∧
      (calculate_flood_risk config location elevation_meters water_bodies
          flood_events drainage_quality annual_rainfall_mm elapsed_ms).1 ≤ 100 ∧
      (∃ n : ℤ, (calculate_flood_risk config location elevation_meters water_bodies
          flood_events drainage_quality annual_rainfall_mm elapsed_ms).1 = (n : ℝ) / 100) ∧
      (calculate_flood_risk config location elevation_meters water_bodies
          flood_events drainage_quality annual_rainfall_mm elapsed_ms).2 ≠ []) ∧
    (0 ≤ (calculate_wildfire_risk config location vegetation_density
          climate_aridity_index fire_events fire_sources temperature_avg_c
          wind_speed_kmh elapsed_ms).1 ∧
      (calculate_wildfire_risk config location vegetation_density
          climate_aridity_index fire_events fire_sources temperature_avg_c
          wind_speed_kmh elapsed_ms).1 ≤ 100 ∧
      (∃ n : ℤ, (calculate_wildfire_risk config location vegetation_density
          climate_aridity_index fire_events fire_sources temperature_avg_c
          wind_speed_kmh elapsed_ms).1 = (n : ℝ) / 100) ∧
      (calculate_wildfire_risk config location vegetation_density
          climate_aridity_index fire_events fire_sources temperature_avg_c
          wind_speed_kmh elapsed_ms).2 ≠ []) ∧
    (0 ≤ (calculate_storm_risk config location storm_events coastal_distance_km
          storm_elevation current_season_index geographic_exposure elapsed_ms).1 ∧
      (calculate_storm_risk config location storm_events coastal_distance_km
          storm_elevation current_season_index geographic_exposure elapsed_ms).1 ≤ 100 ∧
      (∃ n : ℤ, (calculate_storm_risk config location storm_events coastal_distance_km
          storm_elevation current_season_index geographic_exposure elapsed_ms).1 = (n : ℝ) / 100) ∧
      (calculate_storm_risk config location storm_events coastal_distance_km
          storm_elevation current_season_index geographic_exposure elapsed_ms).2 ≠ []) := by
  refine ⟨⟨(score_shape _).1, (score_shape _).2.1, (score_shape _).2.2, ?_⟩,
    ⟨(score_shape _).1, (score_shape _).2.1, (score_shape _).2.2, ?_⟩,
    ⟨(score_shape _).1, (score_shape _).2.1, (score_shape _).2.2, ?_⟩,
    ⟨(score_shape _).1, (score_shape _).2.1, (score_shape _).2.2, ?_⟩⟩
  · simp [calculate_seismic_risk]
  · simp [calculate_flood_risk]
  · simp [calculate_wildfire_risk]
  · simp [calculate_storm_risk]

/-! ## C9: composite aggregation over no hazards -/

/-- **C9**: aggregating an empty map of hazard scores returns score 0 and
risk level LOW without erroring, and the breakdown is the explicit no-data
marker entry `\x7b'error': 'No hazard scores provided'\x7d`. -/
theorem claim_C9 (config : AssessmentConfig) (elapsed_ms : ℝ)
    (hazard_weights : Option (List (HazardType × ℝ))) :
    calculate_composite_risk config [] hazard_weights elapsed_ms =
      (0, RiskLevel.low, CompositeBreakdown.error "No hazard scores provided") :=
  rfl

/-! ## C3: historical weighting formula -/

/-- **C3**: for every non-empty list of historical events and decay horizon
10 years, the historical weighting equals
`min 100 ((Σ (severity/10·100)·exp(-(daysAgo/365)/10)) / (Σ exp(-(daysAgo/365)/10)) · (1 + min (count/10) 0.2))`,
and it equals 0 for the empty list. -/
theorem claim_C3 (events : List HistoricalEvent) (location : GeographicPoint)
    (h : events ≠ []) :
    calculate_historical_weighting [] location 10 = 0 ∧
    calculate_historical_weighting events location 10 =
      min 100
        (((events.map fun e =>
              e.severity / 10 * 100 * Real.exp (-(e.days_ago / 365) / 10)).sum /
            (events.map fun e => Real.exp (-(e.days_ago / 365) / 10)).sum) *
          (1 + min ((events.length : ℝ) / 10) 0.2)) := by
  refine ⟨rfl, ?_⟩
  match events, h with
  | e0 :: rest, _ =>
    have hpos : 0 < ((e0 :: rest).map (eventTimeWeight 10)).sum := by
      apply List.sum_pos
      · intro x hx
        rcases List.mem_map.mp hx with ⟨e, _, rfl⟩
        exact Real.exp_pos _
      · simp
    unfold calculate_historical_weighting
    rw [if_neg (ne_of_gt hpos)]
    simp only [eventSeverityScore, eventTimeWeight]
    rw [show (eventTimeWeight 10) =
        (fun e : HistoricalEvent => Real.exp (-(e.days_ago / 365) / 10)) from
      funext fun e => rfl]
    rw [min_comm]

/-- Witness for C3 at one concrete event list. -/
theorem claim_C3_witness :
    ([(⟨5, 100, 10⟩ : HistoricalEvent)] ≠ []) ∧
    (calculate_historical_weighting [] ⟨0, 0⟩ 10 = 0 ∧
      calculate_historical_weighting [⟨5, 100, 10⟩] ⟨0, 0⟩ 10 =
        min 100
          ((([(⟨5, 100, 10⟩ : HistoricalEvent)].map fun e =>
                e.severity / 10 * 100 * Real.exp (-(e.days_ago / 365) / 10)).sum /
              ([(⟨5, 100, 10⟩ : HistoricalEvent)].map fun e =>
                Real.exp (-(e.days_ago / 365) / 10)).sum) *
            (1 + min (([(⟨5, 100, 10⟩ : HistoricalEvent)].length : ℝ) / 10) 0.2))) :=
  ⟨by simp, claim_C3 [⟨5, 100, 10⟩] ⟨0, 0⟩ (by simp)⟩

/-! ## Helper lemmas about list maxima and rounding of exact values -/

theorem le_foldl_max (t : List ℝ) (x : ℝ) : x ≤ t.foldl max x := by
  induction t generalizing x with
  | nil => exact le_rfl
  | cons a t ih => exact le_trans (le_max_left x a) (ih (max x a))

theorem mem_le_foldl_max (t : List ℝ) (x : ℝ) : ∀ y ∈ t, y ≤ t.foldl max x := by
  induction t generalizing x with
  | nil => intro y hy; simp at hy
  | cons a t ih =>
    intro y hy
    rcases List.mem_cons.mp hy with rfl | hy'
    · exact le_trans (le_max_right x y) (le_foldl_max t (max x y))
    · exact ih (max x a) y hy'

theorem foldl_max_mem (t : List ℝ) (x : ℝ) :
    t.foldl max x = x ∨ t.foldl max x ∈ t := by
  induction t generalizing x with
  | nil => left; rfl
  | cons a t ih =>
    rcases ih (max x a) with h | h
    · rcases le_total a x with hax | hxa
      · left
        rw [List.foldl_cons, h, max_eq_left hax]
      · right
        rw [List.foldl_cons, h, max_eq_right hxa]
        exact List.mem_cons_self a t
    · right
      exact List.mem_cons_of_mem _ h

theorem le_listMax {l : List ℝ} : ∀ y ∈ l, y ≤ listMax l := by
  match l with
  | [] => intro y hy; simp at hy
  | x :: t =>
    intro y hy
    rcases List.mem_cons.mp hy with rfl | hy'
    · exact le_foldl_max t y
    · exact mem_le_foldl_max t x y hy'

theorem listMax_le {l : List ℝ} (h : l ≠ []) {c : ℝ}
    (hc : ∀ y ∈ l, y ≤ c) : listMax l ≤ c := by
  match l, h with
  | x :: t, _ =>
    rcases foldl_max_mem t x with hm | hm
    · rw [listMax, hm]
      exact hc x (List.mem_cons_self x t)
    · exact hc _ (List.mem_cons_of_mem _ hm)

theorem listMax_ge {l : List ℝ} (h : l ≠ []) {c : ℝ}
    (hc : ∀ y ∈ l, c ≤ y) : c ≤ listMax l := by
  match l, h with
  | x :: t, _ =>
    exact le_trans (hc x (List.mem_cons_self x t)) (le_listMax x (List.mem_cons_self x t))

theorem round2_of_mul_100_int (x : ℝ) (n : ℤ) (h : x * 100 = (n : ℝ)) :
    round2 x = (n : ℝ) / 100 := by
  unfold round2
  rw [h, round_intCast]

/-! ## C2: composite aggregation methods -/

theorem sum_map_const_real {A : Type} (l : List A) (c : ℝ) :
    (l.map fun _ => c).sum = (l.length : ℝ) * c := by
  induction l with
  | nil => simp
  | cons a l ih =>
    simp [ih]
    ring

theorem dictLookup_map_pair_const {A B C : Type} [DecidableEq A]
    (l : List (A × B)) (c : C) (k : A) (hk : k ∈ l.map Prod.fst) :
    dictLookup (l.map fun q => (q.1, c)) k = some c := by
  induction l with
  | nil => simp at hk
  | cons a l ih =>
    by_cases h : a.1 = k
    · simp [dictLookup, h]
    · simp only [List.map_cons, dictLookup, if_neg h]
      apply ih
      rcases List.mem_map.mp hk with ⟨q, hq, rfl⟩
      rcases List.mem_cons.mp hq with rfl | hq'
      · exact absurd rfl h
      · exact List.mem_map_of_mem _ hq'

theorem composite_fst_max (config : AssessmentConfig)
    (hm : config.composite_aggregation_method = "max")
    (p : HazardType × ℝ) (t : List (HazardType × ℝ))
    (hw : Option (List (HazardType × ℝ))) (e : ℝ) :
    (calculate_composite_risk config (p :: t) hw e).1 =
      round2 (clamp100 (listMax ((p :: t).map Prod.snd))) := by
  simp only [calculate_composite_risk, hm, String.reduceEq, reduceIte]

theorem composite_fst_weighted_none (config : AssessmentConfig)
    (hm : config.composite_aggregation_method = "weighted_average")
    (p : HazardType × ℝ) (t : List (HazardType × ℝ)) (e : ℝ) :
    (calculate_composite_risk config (p :: t) none e).1 =
      round2 (clamp100 (((p :: t).map Prod.snd).sum / (((p :: t).length : ℕ) : ℝ))) := by
  have hn : (0 : ℝ) < (((p :: t).length : ℕ) : ℝ) := by
    exact_mod_cast Nat.succ_pos t.length
  simp only [calculate_composite_risk, hm, String.reduceEq, reduceIte]
  have hws : (((p :: t).map fun q => (q.1, 1 / (((p :: t).length : ℕ) : ℝ))).map Prod.snd).sum
      = 1 := by
    rw [List.map_map]
    have : (Prod.snd ∘ fun q : HazardType × ℝ => (q.1, 1 / (((p :: t).length : ℕ) : ℝ)))
        = fun _ : HazardType × ℝ => 1 / (((p :: t).length : ℕ) : ℝ) := rfl
    rw [this, sum_map_const_real]
    field_simp
  rw [hws]
  rw [if_pos (by norm_num : (0 : ℝ) < 1)]
  have hlook : ((p :: t).map fun q =>
        q.2 * ((dictLookup (((p :: t).map fun q => (q.1, 1 / (((p :: t).length : ℕ) : ℝ))).map
          fun q => (q.1, q.2 / 1)) q.1).getD 0)) =
      ((p :: t).map fun q => q.2 * (1 / (((p :: t).length : ℕ) : ℝ))) := by
    apply List.map_congr_left
    intro q hq
    rw [List.map_map]
    have heq : ((fun q : HazardType × ℝ => (q.1, q.2 / 1)) ∘
        fun q : HazardType × ℝ => (q.1, 1 / (((p :: t).length : ℕ) : ℝ)))
        = fun q : HazardType × ℝ => (q.1, 1 / (((p :: t).length : ℕ) : ℝ) / 1) := rfl
    rw [heq, dictLookup_map_pair_const _ _ _ (List.mem_map_of_mem Prod.fst hq)]
    simp
  rw [hlook, List.sum_map_mul_right]
  rw [mul_one_div]

theorem composite_fst_prob_5050 (e : ℝ) :
    (calculate_composite_risk probConfig
        [(HazardType.earthquake, (50 : ℝ)), (HazardType.flood, 50)] none e).1 = 75 := by
  simp only [calculate_composite_risk, probConfig, String.reduceEq, reduceIte]
  have hraw : (1 - ([(HazardType.earthquake, (50 : ℝ)), (HazardType.flood, 50)].map
      fun q => 1 - q.2 / 100).prod) * 100 = (75 : ℝ) := by
    simp
    norm_num
  rw [hraw, clamp100_of_bounds (by norm_num) (by norm_num),
    round2_of_mul_100_int 75 7500 (by norm_num)]
  norm_num

/-- **C2 (amended)**: on every non-empty score map with values in [0, 100],
the composite aggregator returns, with method `"max"`, the maximum score
rounded to 2 decimals (not the raw maximum); with method `"weighted_average"`
and default (equal) weights, the arithmetic mean rounded to 2 decimals; and
with method `"probabilistic"` on exactly two scores of 50 it returns exactly
75.0 (already a 2-decimal value). -/
theorem claim_C2_amended (scores : List (HazardType × ℝ)) (elapsed_ms : ℝ)
    (h1 : scores ≠ []) (h2 : ∀ q ∈ scores, 0 ≤ q.2 ∧ q.2 ≤ 100) :
    (calculate_composite_risk maxConfig scores none elapsed_ms).1 =
      round2 (listMax (scores.map Prod.snd)) ∧
    (calculate_composite_risk defaultConfig scores none elapsed_ms).1 =
      round2 ((scores.map Prod.snd).sum / (scores.length : ℝ)) ∧
    (calculate_composite_risk probConfig
        [(HazardType.earthquake, (50 : ℝ)), (HazardType.flood, 50)] none
        elapsed_ms).1 = 75 := by
  match scores, h1 with
  | p :: t, _ =>
    have hne : (p :: t).map Prod.snd ≠ [] := by simp
    have hlow : ∀ y ∈ (p :: t).map Prod.snd, 0 ≤ y := by
      intro y hy
      rcases List.mem_map.mp hy with ⟨q, hq, rfl⟩
      exact (h2 q hq).1
    have hhigh : ∀ y ∈ (p :: t).map Prod.snd, y ≤ 100 := by
      intro y hy
      rcases List.mem_map.mp hy with ⟨q, hq, rfl⟩
      exact (h2 q hq).2
    refine ⟨?_, ?_, composite_fst_prob_5050 elapsed_ms⟩
    · rw [composite_fst_max maxConfig rfl p t none elapsed_ms,
        clamp100_of_bounds (listMax_ge hne hlow) (listMax_le hne hhigh)]
    · have hn : (0 : ℝ) < ((p :: t).length : ℝ) := by
        exact_mod_cast Nat.succ_pos t.length
      have hs0 : 0 ≤ ((p :: t).map Prod.snd).sum := List.sum_nonneg hlow
      have hs1 : ((p :: t).map Prod.snd).sum ≤ ((p :: t).length : ℝ) * 100 := by
        have := List.sum_le_card_nsmul ((p :: t).map Prod.snd) 100 hhigh
        rw [nsmul_eq_mul, List.length_map] at this
        exact this
      rw [composite_fst_weighted_none defaultConfig rfl p t elapsed_ms,
        clamp100_of_bounds (div_nonneg hs0 (le_of_lt hn))
          ((div_le_iff₀ hn).mpr (by linarith))]

/-- C2 counterexample: with method `"max"` and the single in-range score
100/3, the aggregator returns 33.33, not the exact maximum 100/3. -/
theorem claim_C2_counterexample :
    (0 : ℝ) ≤ 100 / 3 ∧ (100 / 3 : ℝ) ≤ 100 ∧
    (calculate_composite_risk maxConfig [(HazardType.earthquake, (100 / 3 : ℝ))]
        none 0).1 ≠ 100 / 3 := by
  refine ⟨by norm_num, by norm_num, ?_⟩
  rw [composite_fst_max maxConfig rfl _ [] none 0]
  have h1 : listMax ([(HazardType.earthquake, (100 / 3 : ℝ))].map Prod.snd) =
      100 / 3 := rfl
  rw [h1, clamp100_of_bounds (by norm_num) (by norm_num)]
  have h2 : round2 (100 / 3 : ℝ) = 3333 / 100 := by
    unfold round2
    rw [round_eq]
    norm_num
  rw [h2]
  norm_num

/-- Witness for C2 at a concrete non-empty in-range score map. -/
theorem claim_C2_witness :
    (([(HazardType.earthquake, (50 : ℝ)), (HazardType.storm, 30)] :
        List (HazardType × ℝ)) ≠ []) ∧
    ((calculate_composite_risk maxConfig
        [(HazardType.earthquake, (50 : ℝ)), (HazardType.storm, 30)] none 0).1 =
      round2 (listMax ([(HazardType.earthquake, (50 : ℝ)),
        (HazardType.storm, 30)].map Prod.snd)) ∧
    (calculate_composite_risk defaultConfig
        [(HazardType.earthquake, (50 : ℝ)), (HazardType.storm, 30)] none 0).1 =
      round2 (([(HazardType.earthquake, (50 : ℝ)),
        (HazardType.storm, 30)].map Prod.snd).sum /
        (([(HazardType.earthquake, (50 : ℝ)), (HazardType.storm, 30)].length : ℕ) : ℝ)) ∧
    (calculate_composite_risk probConfig
        [(HazardType.earthquake, (50 : ℝ)), (HazardType.flood, 50)] none 0).1 = 75) :=
  ⟨by simp,
   claim_C2_amended [(HazardType.earthquake, 50), (HazardType.storm, 30)] 0
     (by simp)
     (by
       intro q hq
       rcases List.mem_cons.mp hq with rfl | hq'
       · norm_num
       · rcases List.mem_cons.mp hq' with rfl | hq''
         · norm_num
         · simp at hq'')⟩

/-! ## C8: determinism of scorers and aggregator -/

/-- **C8 (amended)**: two calls to any hazard scorer or to the composite
aggregator with identical arguments produce identical scores, risk levels and
breakdowns *except for the `calculation_time_ms` entry*, which records the
wall-clock measurement of that call and so differs between calls. -/
theorem claim_C8_amended (config : AssessmentConfig) (location : GeographicPoint)
    (fault_lines water_bodies fire_sources : List HazardSource)
    (seismic_events flood_events fire_events storm_events : List HistoricalEvent)
    (soil_amplification building_code_rating elevation_meters drainage_quality
      annual_rainfall_mm vegetation_density climate_aridity_index
      temperature_avg_c wind_speed_kmh coastal_distance_km storm_elevation
      geographic_exposure elapsed1 elapsed2 : ℝ) (current_season_index : ℕ)
    (hazard_scores : List (HazardType × ℝ))
    (hazard_weights : Option (List (HazardType × ℝ))) :
    ((calculate_seismic_risk config location fault_lines seismic_events
        soil_amplification building_code_rating elapsed1).1 =
      (calculate_seismic_risk config location fault_lines seismic_events
        soil_amplification building_code_rating elapsed2).1 ∧
     breakdownSansTime (calculate_seismic_risk config location fault_lines
        seismic_events soil_amplification building_code_rating elapsed1).2 =
      breakdownSansTime (calculate_seismic_risk config location fault_lines
        seismic_events soil_amplification building_code_rating elapsed2).2) ∧
    ((calculate_flood_risk config location elevation_meters water_bodies
        flood_events drainage_quality annual_rainfall_mm elapsed1).1 =
      (calculate_flood_risk config location elevation_meters water_bodies
        flood_events drainage_quality annual_rainfall_mm elapsed2).1 ∧
     breakdownSansTime (calculate_flood_risk config location elevation_meters
        water_bodies flood_events drainage_quality annual_rainfall_mm elapsed1).2 =
      breakdownSansTime (calculate_flood_risk config location elevation_meters
        water_bodies flood_events drainage_quality annual_rainfall_mm elapsed2).2) ∧
    ((calculate_wildfire_risk config location vegetation_density
        climate_aridity_index fire_events fire_sources temperature_avg_c
        wind_speed_kmh elapsed1).1 =
      (calculate_wildfire_risk config location vegetation_density
        climate_aridity_index fire_events fire_sources temperature_avg_c
        wind_speed_kmh elapsed2).1 ∧
     breakdownSansTime (calculate_wildfire_risk config location vegetation_density
        climate_aridity_index fire_events fire_sources temperature_avg_c
        wind_speed_kmh elapsed1).2 =
      breakdownSansTime (calculate_wildfire_risk config location vegetation_density
        climate_aridity_index fire_events fire_sources temperature_avg_c
        wind_speed_kmh elapsed2).2) ∧
    ((calculate_storm_risk config location storm_events coastal_distance_km
        storm_elevation current_season_index geographic_exposure elapsed1).1 =
      (calculate_storm_risk config location storm_events coastal_distance_km
        storm_elevation current_season_index geographic_exposure elapsed2).1 ∧
     breakdownSansTime (calculate_storm_risk config location storm_events
        coastal_distance_km storm_elevation current_season_index
        geographic_exposure elapsed1).2 =
      breakdownSansTime (calculate_storm_risk config location storm_events
        coastal_distance_km storm_elevation current_season_index
        geographic_exposure elapsed2).2) ∧
    ((calculate_composite_risk config hazard_scores hazard_weights elapsed1).1 =
      (calculate_composite_risk config hazard_scores hazard_weights elapsed2).1 ∧
     (calculate_composite_risk config hazard_scores hazard_weights elapsed1).2.1 =
      (calculate_composite_risk config hazard_scores hazard_weights elapsed2).2.1 ∧
     CompositeBreakdown.sansTime
        (calculate_composite_risk config hazard_scores hazard_weights elapsed1).2.2 =
      CompositeBreakdown.sansTime
        (calculate_composite_risk config hazard_scores hazard_weights elapsed2).2.2) := by
  refine ⟨⟨rfl, rfl⟩, ⟨rfl, rfl⟩, ⟨rfl, rfl⟩, ⟨rfl, rfl⟩, ?_, ?_, ?_⟩
  · cases hazard_scores <;> rfl
  · cases hazard_scores <;> rfl
  · cases hazard_scores <;> rfl

/-- C8 counterexample: the full outputs of two calls with identical arguments
are not bit-identical, because the breakdown embeds the wall-clock
`calculation_time_ms` of each call (here 1 ms versus 2 ms). -/
theorem claim_C8_counterexample :
    calculate_seismic_risk defaultConfig ⟨0, 0⟩ [] [] 1 5 1 ≠
      calculate_seismic_risk defaultConfig ⟨0, 0⟩ [] [] 1 5 2 := by
  intro h
  have h2 := congrArg (fun r => r.2) h
  simp only [calculate_seismic_risk, List.cons.injEq, Prod.mk.injEq, and_true,
    true_and] at h2
  norm_num at h2

/-! ## C6: cache-key derivation -/

theorem round4_grid_jitter (k : ℤ) (δ : ℚ) (h : |δ| < 5 / 100000) :
    round4 ((k : ℚ) / 10000 + δ) = round4 ((k : ℚ) / 10000) := by
  unfold round4
  rw [abs_lt] at h
  have h1 : ((k : ℚ) / 10000 + δ) * 10000 = δ * 10000 + (k : ℚ) := by ring
  have h2 : ((k : ℚ) / 10000) * 10000 = (k : ℚ) := by ring
  rw [h1, h2, round_add_int, round_intCast]
  have h3 : round (δ * 10000) = 0 := by
    rw [round_eq_zero_iff]
    constructor
    · linarith
    · linarith
  rw [h3, zero_add]

theorem round4_gap_ne {x y : ℚ} (h : 1 / 10000 < |x - y|) :
    round4 x ≠ round4 y := by
  intro heq
  unfold round4 at heq
  have h1 : ((round (x * 10000) : ℤ) : ℚ) = ((round (y * 10000) : ℤ) : ℚ) := by
    field_simp at heq
    exact_mod_cast heq
  have hx := abs_sub_round (x * 10000)
  have hy := abs_sub_round (y * 10000)
  rw [abs_le] at hx hy
  rw [h1] at hx
  rcases le_or_lt 0 (x - y) with hpos | hneg
  · rw [abs_of_nonneg hpos] at h
    linarith [hx.2, hy.1]
  · rw [abs_of_neg hneg] at h
    linarith [hy.2, hx.1]

theorem sortedHazardValues_perm {l l' : List HazardType} (h : l.Perm l') :
    sortedHazardValues l = sortedHazardValues l' := by
  unfold sortedHazardValues
  congr 1
  exact Multiset.coe_eq_coe.mpr (h.map HazardType.value)

/-- **C6 (amended)**: for every pair of coordinates, the derived cache key is
unchanged by any reordering of the hazard-type list; it is unchanged by
perturbing either coordinate by any amount strictly below 0.00005° *when the
coordinate lies on the 0.0001° grid* (off the grid, a sub-0.00005° perturbation
can cross a rounding boundary and change the key); and it changes whenever
either coordinate differs by more than 0.0001°, whatever the rest of the
inputs. -/
theorem claim_C6_amended :
    (∀ (lat lon : ℚ) (hts hts' : List HazardType)
        (rf : Option (List (String × ℚ))), hts.Perm hts' →
      CacheKey_risk_assessment lat lon hts rf =
        CacheKey_risk_assessment lat lon hts' rf) ∧
    (∀ (k m : ℤ) (δ1 δ2 : ℚ) (hts : List HazardType)
        (rf : Option (List (String × ℚ))),
      |δ1| < 5 / 100000 → |δ2| < 5 / 100000 →
      CacheKey_risk_assessment ((k : ℚ) / 10000 + δ1) ((m : ℚ) / 10000 + δ2)
          hts rf =
        CacheKey_risk_assessment ((k : ℚ) / 10000) ((m : ℚ) / 10000) hts rf) ∧
    (∀ (lat1 lon1 lat2 lon2 : ℚ) (hts1 hts2 : List HazardType)
        (rf1 rf2 : Option (List (String × ℚ))),
      (1 / 10000 < |lat1 - lat2| ∨ 1 / 10000 < |lon1 - lon2|) →
      CacheKey_risk_assessment lat1 lon1 hts1 rf1 ≠
        CacheKey_risk_assessment lat2 lon2 hts2 rf2) := by
  refine ⟨?_, ?_, ?_⟩
  · intro lat lon hts hts' rf hperm
    unfold CacheKey_risk_assessment
    rw [sortedHazardValues_perm hperm]
  · intro k m δ1 δ2 hts rf hδ1 hδ2
    unfold CacheKey_risk_assessment
    rw [round4_grid_jitter k δ1 hδ1, round4_grid_jitter m δ2 hδ2]
  · intro lat1 lon1 lat2 lon2 hts1 hts2 rf1 rf2 hfar h
    rcases hfar with hfar | hfar
    · exact round4_gap_ne hfar (congrArg RiskAssessmentKey.lat_part h)
    · exact round4_gap_ne hfar (congrArg RiskAssessmentKey.lon_part h)

/-- C6 counterexample: latitudes 0.00002° and 0.00006° differ by 0.00004°,
strictly below the 0.00005° jitter bound of the claim, yet they round to
different 4-decimal values (0.0 versus 0.0001) and so produce different cache
keys. -/
theorem claim_C6_counterexample :
    |(6 / 100000 : ℚ) - 2 / 100000| < 5 / 100000 ∧
    CacheKey_risk_assessment (2 / 100000) 0 [HazardType.earthquake] none ≠
      CacheKey_risk_assessment (6 / 100000) 0 [HazardType.earthquake] none := by
  constructor
  · norm_num [abs_lt]
  · intro h
    have hl := congrArg RiskAssessmentKey.lat_part h
    have h1 : round4 (2 / 100000 : ℚ) = 0 := by
      unfold round4
      rw [round_eq]
      norm_num
    have h2 : round4 (6 / 100000 : ℚ) = 1 / 10000 := by
      unfold round4
      rw [round_eq]
      norm_num
    rw [show (CacheKey_risk_assessment (2 / 100000) 0 [HazardType.earthquake]
        none).lat_part = round4 (2 / 100000) from rfl,
      show (CacheKey_risk_assessment (6 / 100000) 0 [HazardType.earthquake]
        none).lat_part = round4 (6 / 100000) from rfl, h1, h2] at hl
    norm_num at hl

/-- Witness for C6: the hazard-reorder part at off-grid coordinates, the
jitter part on the 0.0001° grid perturbing both coordinates, and the
key-change part forced by a longitude gap alone. -/
theorem claim_C6_witness :
    (CacheKey_risk_assessment (1 / 30000) (-1 / 70000)
        [HazardType.flood, HazardType.earthquake] none =
      CacheKey_risk_assessment (1 / 30000) (-1 / 70000)
        [HazardType.earthquake, HazardType.flood] none) ∧
    (CacheKey_risk_assessment (((377749 : ℤ) : ℚ) / 10000 + 1 / 30000)
        (((-1224194 : ℤ) : ℚ) / 10000 + -1 / 40000)
        [HazardType.flood, HazardType.earthquake] none =
      CacheKey_risk_assessment (((377749 : ℤ) : ℚ) / 10000)
        (((-1224194 : ℤ) : ℚ) / 10000)
        [HazardType.flood, HazardType.earthquake] none) ∧
    (CacheKey_risk_assessment 0 5 [HazardType.flood, HazardType.earthquake]
        none ≠
      CacheKey_risk_assessment 0 (5 + 2 / 10000)
        [HazardType.flood, HazardType.earthquake] none) :=
  ⟨claim_C6_amended.1 (1 / 30000) (-1 / 70000)
     [HazardType.flood, HazardType.earthquake]
     [HazardType.earthquake, HazardType.flood] none (by decide),
   claim_C6_amended.2.1 377749 (-1224194) (1 / 30000) (-1 / 40000)
     [HazardType.flood, HazardType.earthquake] none
     (by norm_num [abs_lt]) (by norm_num [abs_lt]),
   claim_C6_amended.2.2 0 5 0 (5 + 2 / 10000)
     [HazardType.flood, HazardType.earthquake]
     [HazardType.flood, HazardType.earthquake] none none
     (Or.inr (by
       rw [show (5 : ℚ) - (5 + 2 / 10000) = -(1 / 5000) by norm_num, abs_neg,
         abs_of_pos (by norm_num : (0 : ℚ) < 1 / 5000)]
       norm_num))⟩

/-! ## C10: hit/miss accounting of the caching service -/

/-- **C10**: on every assessment lookup, the hit counter is incremented
exactly when the underlying cache returns a truthy (non-`None`, non-empty)
value for the derived key, and the miss counter exactly otherwise; in
particular a stored, unexpired assessment whose value is the empty dict is
returned to the caller but counted as a miss. -/
theorem claim_C10 (s : CachingServiceState) (now lat lon : ℚ)
    (hts : List HazardType) (rf : Option (List (String × ℚ))) :
    (((CachingService_get_risk_assessment s now lat lon hts rf).2.hit_count =
          s.hit_count + 1 ∧
        (CachingService_get_risk_assessment s now lat lon hts rf).2.miss_count =
          s.miss_count) ↔
      truthyDict (cacheGet s.cache now
        (CacheKey_risk_assessment lat lon hts rf)).1 = true) ∧
    (((CachingService_get_risk_assessment s now lat lon hts rf).2.miss_count =
          s.miss_count + 1 ∧
        (CachingService_get_risk_assessment s now lat lon hts rf).2.hit_count =
          s.hit_count) ↔
      truthyDict (cacheGet s.cache now
        (CacheKey_risk_assessment lat lon hts rf)).1 = false) ∧
    (∀ item : CacheItem (List (String × ℚ)),
      dictLookup s.cache.cache (CacheKey_risk_assessment lat lon hts rf) =
        some item →
      item.value = [] → ¬ item.expires_at < now →
      (CachingService_get_risk_assessment s now lat lon hts rf).1 = some [] ∧
      (CachingService_get_risk_assessment s now lat lon hts rf).2.miss_count =
        s.miss_count + 1 ∧
      (CachingService_get_risk_assessment s now lat lon hts rf).2.hit_count =
        s.hit_count) := by
  refine ⟨?_, ?_, ?_⟩
  · unfold CachingService_get_risk_assessment
    cases htr : truthyDict (cacheGet s.cache now
        (CacheKey_risk_assessment lat lon hts rf)).1 <;> simp [htr]
  · unfold CachingService_get_risk_assessment
    cases htr : truthyDict (cacheGet s.cache now
        (CacheKey_risk_assessment lat lon hts rf)).1 <;> simp [htr]
  · intro item hlk hval hexp
    have hr1 : (cacheGet s.cache now
        (CacheKey_risk_assessment lat lon hts rf)).1 = some [] := by
      unfold cacheGet
      rw [hlk]
      simp [hexp, hval]
    have htr : truthyDict (cacheGet s.cache now
        (CacheKey_risk_assessment lat lon hts rf)).1 = false := by
      rw [hr1]
      rfl
    unfold CachingService_get_risk_assessment
    simp [htr, hr1, truthyDict]

/-- Witness for C10: a stored, unexpired empty-dict assessment at the derived
key is returned but the miss counter is incremented. -/
theorem claim_C10_witness :
    (CachingService_get_risk_assessment c10State 50 0 0 [HazardType.earthquake]
        none).1 = some [] ∧
    (CachingService_get_risk_assessment c10State 50 0 0 [HazardType.earthquake]
        none).2.miss_count = c10State.miss_count + 1 ∧
    (CachingService_get_risk_assessment c10State 50 0 0 [HazardType.earthquake]
        none).2.hit_count = c10State.hit_count :=
  (claim_C10 c10State 50 0 0 [HazardType.earthquake] none).2.2 ⟨[], 100, 0⟩
    (by simp [c10State, c10Key, dictLookup]) rfl (by norm_num)

/-! ## Component-level lemmas for the scorers -/

theorem proximity_exponential_nonneg (d r : ℝ) :
    0 ≤ calculate_proximity_impact d r .exponential := by
  unfold calculate_proximity_impact
  split
  · exact le_rfl
  · exact (Real.exp_pos _).le

theorem proximity_exponential_le_one (d r : ℝ) (hd : 0 ≤ d) (hr : 0 ≤ r) :
    calculate_proximity_impact d r .exponential ≤ 1 := by
  unfold calculate_proximity_impact
  split
  · norm_num
  · rw [Real.exp_le_one_iff]
    have : 0 ≤ d / r := div_nonneg hd hr
    linarith

theorem le_foldl_maxI (rest : List HazardSource) (x : ℝ) :
    x ≤ rest.foldl (fun m f => max m f.intensity) x := by
  induction rest generalizing x with
  | nil => exact le_rfl
  | cons a t ih => exact le_trans (le_max_left x a.intensity) (ih (max x a.intensity))

theorem mem_le_foldl_maxI (rest : List HazardSource) (x : ℝ) :
    ∀ f ∈ rest, f.intensity ≤ rest.foldl (fun m f => max m f.intensity) x := by
  induction rest generalizing x with
  | nil => intro f hf; simp at hf
  | cons a t ih =>
    intro f hf
    rcases List.mem_cons.mp hf with rfl | hf'
    · exact le_trans (le_max_right x f.intensity) (le_foldl_maxI t (max x f.intensity))
    · exact ih (max x a.intensity) f hf'

theorem foldl_maxI_cases (rest : List HazardSource) (x : ℝ) :
    rest.foldl (fun m f => max m f.intensity) x = x ∨
      ∃ f ∈ rest, rest.foldl (fun m f => max m f.intensity) x = f.intensity := by
  induction rest generalizing x with
  | nil => left; rfl
  | cons a t ih =>
    rcases ih (max x a.intensity) with h | ⟨f, hf, h⟩
    · rcases le_total a.intensity x with hax | hxa
      · left
        rw [List.foldl_cons, h, max_eq_left hax]
      · right
        exact ⟨a, List.mem_cons_self a t, by rw [List.foldl_cons, h, max_eq_right hxa]⟩
    · right
      exact ⟨f, List.mem_cons_of_mem _ hf, by rw [List.foldl_cons, h]⟩

theorem nearestFold_fst_le_acc (location : GeographicPoint)
    (rest : List HazardSource) (acc : ℝ × ℝ) :
    (rest.foldl (nearestFaultStep location) acc).1 ≤ acc.1 := by
  induction rest generalizing acc with
  | nil => exact le_rfl
  | cons a t ih =>
    refine le_trans (ih (nearestFaultStep location acc a)) ?_
    unfold nearestFaultStep
    dsimp only
    split
    next h => exact le_of_lt h
    next h => exact le_rfl

theorem nearestFold_fst_le_mem (location : GeographicPoint)
    (rest : List HazardSource) (acc : ℝ × ℝ) :
    ∀ f ∈ rest, (rest.foldl (nearestFaultStep location) acc).1 ≤
      calculate_distance_km location f.location := by
  induction rest generalizing acc with
  | nil => intro f hf; simp at hf
  | cons a t ih =>
    intro f hf
    rcases List.mem_cons.mp hf with rfl | hf'
    · refine le_trans (nearestFold_fst_le_acc location t (nearestFaultStep location acc f)) ?_
      unfold nearestFaultStep
      dsimp only
      split
      next h => exact le_rfl
      next h => linarith [not_lt.mp h]
    · exact ih (nearestFaultStep location acc a) f hf'

theorem nearestFold_cases (location : GeographicPoint)
    (rest : List HazardSource) (acc : ℝ × ℝ) :
    rest.foldl (nearestFaultStep location) acc = acc ∨
      ∃ f ∈ rest, rest.foldl (nearestFaultStep location) acc =
        (calculate_distance_km location f.location, f.intensity) := by
  induction rest generalizing acc with
  | nil => left; rfl
  | cons a t ih =>
    rcases ih (nearestFaultStep location acc a) with h | ⟨f, hf, h⟩
    · rw [List.foldl_cons, h]
      unfold nearestFaultStep
      dsimp only
      split
      next hd => exact Or.inr ⟨a, List.mem_cons_self a t, rfl⟩
      next hd => exact Or.inl rfl
    · right
      exact ⟨f, List.mem_cons_of_mem _ hf, by rw [List.foldl_cons, h]⟩

theorem fault_proximity_score_nonneg (location : GeographicPoint)
    (l : List HazardSource) (h : ∀ f ∈ l, 0 ≤ f.intensity) :
    0 ≤ fault_proximity_score location l := by
  match l with
  | [] => exact le_rfl
  | f0 :: rest =>
    unfold fault_proximity_score
    have hi : 0 ≤ (rest.foldl (nearestFaultStep location)
        (calculate_distance_km location f0.location, f0.intensity)).2 := by
      rcases nearestFold_cases location rest
          (calculate_distance_km location f0.location, f0.intensity) with hc | ⟨f, hf, hc⟩
      · rw [hc]
        exact h f0 (List.mem_cons_self f0 rest)
      · rw [hc]
        exact h f (List.mem_cons_of_mem _ hf)
    have hp := proximity_exponential_nonneg
      (rest.foldl (nearestFaultStep location)
        (calculate_distance_km location f0.location, f0.intensity)).1
      f0.influence_radius_km
    dsimp only
    exact mul_nonneg (mul_nonneg hp (div_nonneg hi (by norm_num))) (by norm_num)

theorem magnitude_score_nonneg (l : List HazardSource)
    (h : ∀ f ∈ l, 0 ≤ f.intensity) : 0 ≤ magnitude_score l := by
  match l with
  | [] => exact le_rfl
  | f0 :: rest =>
    unfold magnitude_score
    have hm : 0 ≤ rest.foldl (fun m f => max m f.intensity) f0.intensity :=
      le_trans (h f0 (List.mem_cons_self f0 rest)) (le_foldl_maxI rest f0.intensity)
    have h2 : (0 : ℝ) ≤ (rest.foldl (fun m f => max m f.intensity) f0.intensity / 10)
        ^ (1.5 : ℝ) :=
      Real.rpow_nonneg (div_nonneg hm (by norm_num)) _
    dsimp only
    exact mul_nonneg h2 (by norm_num)

theorem historical_nonneg (events : List HistoricalEvent) (location : GeographicPoint)
    (h : ∀ e ∈ events, 0 ≤ e.severity) :
    0 ≤ calculate_historical_weighting events location 10 := by
  match events with
  | [] => exact le_rfl
  | e0 :: rest =>
    unfold calculate_historical_weighting
    dsimp only
    by_cases htw : (List.map (eventTimeWeight 10) (e0 :: rest)).sum = 0
    · rw [if_pos htw]
    · rw [if_neg htw]
      apply le_min
      · apply mul_nonneg
        · apply div_nonneg
          · apply List.sum_nonneg
            intro x hx
            rcases List.mem_map.mp hx with ⟨e, he, rfl⟩
            have := h e he
            unfold eventSeverityScore eventTimeWeight
            positivity
          · apply List.sum_nonneg
            intro x hx
            rcases List.mem_map.mp hx with ⟨e, he, rfl⟩
            exact (Real.exp_pos _).le
        · have h1 : (0 : ℝ) ≤ min (((e0 :: rest).length : ℝ) / 10) 0.2 :=
            le_min (by positivity) (by norm_num)
          linarith
      · norm_num

/-! ## C5: directional sensitivity of the scorers -/

theorem distance_self (p : GeographicPoint) : calculate_distance_km p p = 0 := by
  unfold calculate_distance_km degRadians
  norm_num [Real.sqrt_zero, Real.arcsin_zero]

/-- C5 counterexample: with no fault lines and no historical events (all
inputs in range), the seismic score is 0 for both building-code ratings 10
and 0, so a rating of 10 does not yield a *strictly* lower score. -/
theorem claim_C5_counterexample :
    ¬ ((calculate_seismic_risk defaultConfig ⟨0, 0⟩ [] [] 1 10 0).1 <
        (calculate_seismic_risk defaultConfig ⟨0, 0⟩ [] [] 1 0 0).1) := by
  have h : ∀ bc : ℝ,
      (calculate_seismic_risk defaultConfig ⟨0, 0⟩ [] [] 1 bc 0).1 = 0 := by
    intro bc
    have hpre : seismicPreRisk defaultConfig ⟨0, 0⟩ [] [] 1 bc = 0 := by
      unfold seismicPreRisk seismicBaseRisk fault_proximity_score magnitude_score
        calculate_historical_weighting
      ring
    show round2 (clamp100 (seismicPreRisk defaultConfig ⟨0, 0⟩ [] [] 1 bc)) = 0
    rw [hpre, clamp100_of_bounds le_rfl (by norm_num), round2_zero]
  rw [h 10, h 0]
  exact lt_irrefl 0

/-- **C5 (amended)**: with all other inputs held equal and in range, the
directional sensitivities hold in the following form.  Seismic: a
building-code rating of 10 yields a score at most that of rating 0, and the
pre-clamping, pre-rounding risk is strictly lower whenever the weighted base
risk is positive (with no faults and no events both scores are 0).  Flood:
a strictly higher elevation strictly lowers the pre-clamp risk and weakly
lowers the final score.  Wildfire: strictly higher vegetation density or
aridity strictly raises the pre-clamp risk and weakly raises the final score.
Storm: coastal distance 0 km strictly raises the pre-clamp risk over distance
100 km and weakly raises the final score.  (Strictness of the final rounded
scores can be lost to the [0,100] clamp and the 2-decimal rounding.) -/
theorem claim_C5_amended
    (location : GeographicPoint)
    (fault_lines : List HazardSource) (seismic_events : List HistoricalEvent)
    (soil_amplification : ℝ)
    (elevation1 elevation2 : ℝ) (water_bodies : List HazardSource)
    (flood_events : List HistoricalEvent) (drainage_quality annual_rainfall_mm : ℝ)
    (veg1 veg2 veg arid1 arid2 arid : ℝ) (fire_events : List HistoricalEvent)
    (fire_sources : List HazardSource) (temperature_avg_c wind_speed_kmh : ℝ)
    (storm_events : List HistoricalEvent) (storm_elevation : ℝ)
    (current_season_index : ℕ) (geographic_exposure elapsed_ms : ℝ)
    (hsoil : 0 ≤ soil_amplification)
    (hsev : ∀ e ∈ seismic_events, 0 ≤ e.severity)
    (hint : ∀ f ∈ fault_lines, 0 ≤ f.intensity)
    (helev : elevation1 < elevation2)
    (hrain : 0 ≤ annual_rainfall_mm)
    (hveg : veg1 < veg2) (harid : arid1 < arid2)
    (hwind : 0 ≤ wind_speed_kmh)
    (hstsev : ∀ e ∈ storm_events, 0 ≤ e.severity)
    (hexpo : 0 ≤ geographic_exposure)
    (hmonth : current_season_index < 12) :
    ((calculate_seismic_risk defaultConfig location fault_lines seismic_events
        soil_amplification 10 elapsed_ms).1 ≤
      (calculate_seismic_risk defaultConfig location fault_lines seismic_events
        soil_amplification 0 elapsed_ms).1 ∧
     (0 < seismicBaseRisk defaultConfig location fault_lines seismic_events
          soil_amplification →
       seismicPreRisk defaultConfig location fault_lines seismic_events
          soil_amplification 10 <
         seismicPreRisk defaultConfig location fault_lines seismic_events
          soil_amplification 0)) ∧
    ((calculate_flood_risk defaultConfig location elevation2 water_bodies
        flood_events drainage_quality annual_rainfall_mm elapsed_ms).1 ≤
      (calculate_flood_risk defaultConfig location elevation1 water_bodies
        flood_events drainage_quality annual_rainfall_mm elapsed_ms).1 ∧
     floodPreRisk defaultConfig location elevation2 water_bodies flood_events
        drainage_quality annual_rainfall_mm <
       floodPreRisk defaultConfig location elevation1 water_bodies flood_events
        drainage_quality annual_rainfall_mm) ∧
    ((calculate_wildfire_risk defaultConfig location veg1 arid fire_events
        fire_sources temperature_avg_c wind_speed_kmh elapsed_ms).1 ≤
      (calculate_wildfire_risk defaultConfig location veg2 arid fire_events
        fire_sources temperature_avg_c wind_speed_kmh elapsed_ms).1 ∧
     wildfirePreRisk defaultConfig location veg1 arid fire_events fire_sources
        temperature_avg_c wind_speed_kmh <
       wildfirePreRisk defaultConfig location veg2 arid fire_events fire_sources
        temperature_avg_c wind_speed_kmh ∧
     (calculate_wildfire_risk defaultConfig location veg arid1 fire_events
        fire_sources temperature_avg_c wind_speed_kmh elapsed_ms).1 ≤
      (calculate_wildfire_risk defaultConfig location veg arid2 fire_events
        fire_sources temperature_avg_c wind_speed_kmh elapsed_ms).1 ∧
     wildfirePreRisk defaultConfig location veg arid1 fire_events fire_sources
        temperature_avg_c wind_speed_kmh <
       wildfirePreRisk defaultConfig location veg arid2 fire_events fire_sources
        temperature_avg_c wind_speed_kmh) ∧
    ((calculate_storm_risk defaultConfig location storm_events 100
        storm_elevation current_season_index geographic_exposure elapsed_ms).1 ≤
      (calculate_storm_risk defaultConfig location storm_events 0
        storm_elevation current_season_index geographic_exposure elapsed_ms).1 ∧
     stormPreRisk defaultConfig location storm_events 100 storm_elevation
        current_season_index geographic_exposure <
       stormPreRisk defaultConfig location storm_events 0 storm_elevation
        current_season_index geographic_exposure) := by
  have hbase : 0 ≤ seismicBaseRisk defaultConfig location fault_lines
      seismic_events soil_amplification := by
    unfold seismicBaseRisk
    have h1 := fault_proximity_score_nonneg location fault_lines hint
    have h2 := historical_nonneg seismic_events location hsev
    have h3 := magnitude_score_nonneg fault_lines hint
    simp only [defaultConfig]
    nlinarith [mul_nonneg h1 hsoil, mul_nonneg h2 hsoil, mul_nonneg h3 hsoil]
  -- flood components
  have hes : elevation_score elevation2 < elevation_score elevation1 := by
    unfold elevation_score
    have := Real.exp_lt_exp.mpr (show -elevation2 / 30 < -elevation1 / 30 by linarith)
    linarith
  have hfb : floodBaseRisk defaultConfig location elevation2 water_bodies
      flood_events drainage_quality <
      floodBaseRisk defaultConfig location elevation1 water_bodies flood_events
        drainage_quality := by
    unfold floodBaseRisk
    simp only [defaultConfig]
    nlinarith [hes]
  have hrf : (0 : ℝ) < 0.5 + rainfall_factor annual_rainfall_mm * 0.5 := by
    unfold rainfall_factor
    have h1 : (0 : ℝ) ≤ min (annual_rainfall_mm / 5000) 1 :=
      le_min (by positivity) (by norm_num)
    linarith
  have hfstrict : floodPreRisk defaultConfig location elevation2 water_bodies
      flood_events drainage_quality annual_rainfall_mm <
      floodPreRisk defaultConfig location elevation1 water_bodies flood_events
        drainage_quality annual_rainfall_mm := by
    unfold floodPreRisk
    exact mul_lt_mul_of_pos_right hfb hrf
  -- wildfire components
  have htf : (0 : ℝ) < temperature_factor temperature_avg_c := by
    unfold temperature_factor
    have := le_max_left (0 : ℝ) ((temperature_avg_c - 20) / 20)
    linarith
  have hwf : (0 : ℝ) < wind_factor wind_speed_kmh := by
    unfold wind_factor
    have h1 : (0 : ℝ) ≤ min (wind_speed_kmh / 100) 1 :=
      le_min (by positivity) (by norm_num)
    linarith
  have hwb1 : wildfireBaseRisk defaultConfig location veg1 arid fire_events
      fire_sources <
      wildfireBaseRisk defaultConfig location veg2 arid fire_events fire_sources := by
    unfold wildfireBaseRisk vegetation_score
    simp only [defaultConfig]
    nlinarith [hveg]
  have hwb2 : wildfireBaseRisk defaultConfig location veg arid1 fire_events
      fire_sources <
      wildfireBaseRisk defaultConfig location veg arid2 fire_events fire_sources := by
    unfold wildfireBaseRisk climate_score
    simp only [defaultConfig]
    nlinarith [harid]
  have hwstrict1 : wildfirePreRisk defaultConfig location veg1 arid fire_events
      fire_sources temperature_avg_c wind_speed_kmh <
      wildfirePreRisk defaultConfig location veg2 arid fire_events fire_sources
        temperature_avg_c wind_speed_kmh := by
    unfold wildfirePreRisk
    exact mul_lt_mul_of_pos_right (mul_lt_mul_of_pos_right hwb1 htf) hwf
  have hwstrict2 : wildfirePreRisk defaultConfig location veg arid1 fire_events
      fire_sources temperature_avg_c wind_speed_kmh <
      wildfirePreRisk defaultConfig location veg arid2 fire_events fire_sources
        temperature_avg_c wind_speed_kmh := by
    unfold wildfirePreRisk
    exact mul_lt_mul_of_pos_right (mul_lt_mul_of_pos_right hwb2 htf) hwf
  -- storm components
  have hhist : 0 ≤ storm_historical_score storm_events location := by
    unfold storm_historical_score
    match storm_events with
    | [] => exact le_rfl
    | e0 :: rest =>
      exact le_trans (historical_nonneg (e0 :: rest) location hstsev)
        (le_max_left _ _)
  have hseason : (0.3 : ℝ) ≤ seasonal_weights.getD current_season_index 0 := by
    interval_cases current_season_index <;> norm_num [seasonal_weights]
  have hsb : (9 : ℝ) ≤ stormBaseRisk defaultConfig location storm_events
      current_season_index geographic_exposure := by
    unfold stormBaseRisk exposure_score
    simp only [defaultConfig]
    nlinarith [hhist, hexpo, hseason]
  have hcf : coastal_factor 100 < coastal_factor 0 := by
    unfold coastal_factor
    have h1 : Real.exp (-(100 : ℝ) / 50) < Real.exp (-(0 : ℝ) / 50) :=
      Real.exp_lt_exp.mpr (by norm_num)
    linarith
  have hef : (0 : ℝ) < elevation_factor storm_elevation ^ (0.5 : ℝ) := by
    apply Real.rpow_pos_of_pos
    unfold elevation_factor
    have := le_max_left (0 : ℝ) ((20 - storm_elevation) / 20)
    linarith
  have hsstrict : stormPreRisk defaultConfig location storm_events 100
      storm_elevation current_season_index geographic_exposure <
      stormPreRisk defaultConfig location storm_events 0 storm_elevation
        current_season_index geographic_exposure := by
    unfold stormPreRisk
    exact mul_lt_mul_of_pos_right
      (mul_lt_mul_of_pos_left hcf (by linarith : (0 : ℝ) <
        stormBaseRisk defaultConfig location storm_events current_season_index
          geographic_exposure)) hef
  refine ⟨⟨?_, ?_⟩, ⟨?_, hfstrict⟩, ⟨?_, hwstrict1, ?_, hwstrict2⟩, ⟨?_, hsstrict⟩⟩
  · exact round2_le_round2 (clamp100_mono (by unfold seismicPreRisk; nlinarith [hbase]))
  · intro hpos
    unfold seismicPreRisk
    nlinarith [hpos]
  · exact round2_le_round2 (clamp100_mono (le_of_lt hfstrict))
  · exact round2_le_round2 (clamp100_mono (le_of_lt hwstrict1))
  · exact round2_le_round2 (clamp100_mono (le_of_lt hwstrict2))
  · exact round2_le_round2 (clamp100_mono (le_of_lt hsstrict))

/-- Witness for C5 at concrete in-range inputs (one fault at the assessment
location, no events, typical environmental values). -/
theorem claim_C5_witness :
    ((0 : ℝ) ≤ 1) ∧ ((0 : ℝ) < 10) ∧ ((3 : ℝ) < 5) ∧ ((2 : ℝ) < 4) ∧
    ((0 : ℝ) ≤ 10) ∧ ((0 : ℝ) ≤ 1000) ∧ ((0 : ℝ) ≤ 5) ∧ (8 < 12) ∧
    (((calculate_seismic_risk defaultConfig ⟨0, 0⟩ [⟨⟨0, 0⟩, 8, 100⟩] []
        1 10 0).1 ≤
      (calculate_seismic_risk defaultConfig ⟨0, 0⟩ [⟨⟨0, 0⟩, 8, 100⟩] []
        1 0 0).1 ∧
     (0 < seismicBaseRisk defaultConfig ⟨0, 0⟩ [⟨⟨0, 0⟩, 8, 100⟩] [] 1 →
       seismicPreRisk defaultConfig ⟨0, 0⟩ [⟨⟨0, 0⟩, 8, 100⟩] [] 1 10 <
         seismicPreRisk defaultConfig ⟨0, 0⟩ [⟨⟨0, 0⟩, 8, 100⟩] [] 1 0)) ∧
    ((calculate_flood_risk defaultConfig ⟨0, 0⟩ 10 [] [] 5 1000 0).1 ≤
      (calculate_flood_risk defaultConfig ⟨0, 0⟩ 0 [] [] 5 1000 0).1 ∧
     floodPreRisk defaultConfig ⟨0, 0⟩ 10 [] [] 5 1000 <
       floodPreRisk defaultConfig ⟨0, 0⟩ 0 [] [] 5 1000) ∧
    ((calculate_wildfire_risk defaultConfig ⟨0, 0⟩ 3 6 [] [] 25 10 0).1 ≤
      (calculate_wildfire_risk defaultConfig ⟨0, 0⟩ 5 6 [] [] 25 10 0).1 ∧
     wildfirePreRisk defaultConfig ⟨0, 0⟩ 3 6 [] [] 25 10 <
       wildfirePreRisk defaultConfig ⟨0, 0⟩ 5 6 [] [] 25 10 ∧
     (calculate_wildfire_risk defaultConfig ⟨0, 0⟩ 4 2 [] [] 25 10 0).1 ≤
      (calculate_wildfire_risk defaultConfig ⟨0, 0⟩ 4 4 [] [] 25 10 0).1 ∧
     wildfirePreRisk defaultConfig ⟨0, 0⟩ 4 2 [] [] 25 10 <
       wildfirePreRisk defaultConfig ⟨0, 0⟩ 4 4 [] [] 25 10) ∧
    ((calculate_storm_risk defaultConfig ⟨0, 0⟩ [] 100 2 8 5 0).1 ≤
      (calculate_storm_risk defaultConfig ⟨0, 0⟩ [] 0 2 8 5 0).1 ∧
     stormPreRisk defaultConfig ⟨0, 0⟩ [] 100 2 8 5 <
       stormPreRisk defaultConfig ⟨0, 0⟩ [] 0 2 8 5)) :=
  ⟨by norm_num, by norm_num, by norm_num, by norm_num, by norm_num, by norm_num,
   by norm_num, by norm_num,
   claim_C5_amended ⟨0, 0⟩ [⟨⟨0, 0⟩, 8, 100⟩] [] 1 0 10 [] [] 5 1000
     3 5 4 2 4 6 [] [] 25 10 [] 2 8 5 0
     (by norm_num) (by simp)
     (by
       intro f hf
       rcases List.mem_cons.mp hf with rfl | h
       · norm_num
       · simp at h)
     (by norm_num) (by norm_num) (by norm_num) (by norm_num) (by norm_num)
     (by simp) (by norm_num) (by norm_num)⟩

/-! ## C4: fault-order sensitivity of the seismic scorer -/

theorem distance_0_0_1_0 :
    calculate_distance_km ⟨0, 0⟩ ⟨1, 0⟩ = 6371 * (Real.pi / 180) := by
  have hπ := Real.pi_pos
  unfold calculate_distance_km degRadians
  dsimp only
  rw [show (0 : ℝ) * Real.pi / 180 = 0 by ring,
    show (1 : ℝ) * Real.pi / 180 = Real.pi / 180 by ring,
    sub_zero, sub_self, zero_div, Real.sin_zero]
  rw [show (0 : ℝ) ^ 2 = 0 by norm_num, mul_zero, add_zero]
  have hs : 0 ≤ Real.sin (Real.pi / 180 / 2) :=
    Real.sin_nonneg_of_nonneg_of_le_pi (by positivity) (by linarith)
  rw [Real.sqrt_sq hs,
    Real.arcsin_sin (by linarith) (by linarith)]
  ring

/-- C4 counterexample: two faults at the same point but with different
influence radii.  The decay radius is taken from the *first* list element
(`fault_lines[0].influence_radius_km`), so swapping the list changes the
score: with the 100000 km radius first the score is at least 74.7, with the
1 km radius first the fault-proximity term vanishes and the score is 35. -/
theorem claim_C4_counterexample :
    (calculate_seismic_risk defaultConfig ⟨0, 0⟩
        [⟨⟨1, 0⟩, 10, 100000⟩, ⟨⟨1, 0⟩, 10, 1⟩] [] 1 0 0).1 ≠
      (calculate_seismic_risk defaultConfig ⟨0, 0⟩
        [⟨⟨1, 0⟩, 10, 1⟩, ⟨⟨1, 0⟩, 10, 100000⟩] [] 1 0 0).1 := by
  have hπ3 := Real.pi_gt_three
  have hπ4 := Real.pi_le_four
  have hdval := distance_0_0_1_0
  have hd1 : (100 : ℝ) ≤ calculate_distance_km ⟨0, 0⟩ ⟨1, 0⟩ := by
    rw [hdval]; nlinarith
  have hd2 : calculate_distance_km ⟨0, 0⟩ ⟨1, 0⟩ ≤ 142 := by
    rw [hdval]; nlinarith
  have hnear : ∀ radius : ℝ,
      ([⟨⟨1, 0⟩, 10, radius⟩] : List HazardSource).foldl (nearestFaultStep ⟨0, 0⟩)
        (calculate_distance_km ⟨0, 0⟩ ⟨1, 0⟩, 10) =
      (calculate_distance_km ⟨0, 0⟩ ⟨1, 0⟩, 10) := by
    intro radius
    rw [List.foldl_cons, List.foldl_nil]
    unfold nearestFaultStep
    dsimp only
    rw [if_neg (lt_irrefl _)]
  have hfps1 : fault_proximity_score ⟨0, 0⟩
      [⟨⟨1, 0⟩, 10, 100000⟩, ⟨⟨1, 0⟩, 10, 1⟩] =
      Real.exp (-3 * (calculate_distance_km ⟨0, 0⟩ ⟨1, 0⟩ / 100000)) *
        (10 / 10) * 100 := by
    unfold fault_proximity_score
    dsimp only
    rw [hnear 1]
    unfold calculate_proximity_impact
    rw [if_neg (by linarith : ¬ (100000 : ℝ) ≤ calculate_distance_km ⟨0, 0⟩ ⟨1, 0⟩)]
  have hfps2 : fault_proximity_score ⟨0, 0⟩
      [⟨⟨1, 0⟩, 10, 1⟩, ⟨⟨1, 0⟩, 10, 100000⟩] = 0 := by
    unfold fault_proximity_score
    dsimp only
    rw [hnear 100000]
    unfold calculate_proximity_impact
    rw [if_pos (by linarith : (1 : ℝ) ≤ calculate_distance_km ⟨0, 0⟩ ⟨1, 0⟩)]
    ring
  have hmag : ∀ r1 r2 : ℝ, magnitude_score
      [⟨⟨1, 0⟩, 10, r1⟩, ⟨⟨1, 0⟩, 10, r2⟩] = 100 := by
    intro r1 r2
    unfold magnitude_score
    dsimp only
    rw [List.foldl_cons, List.foldl_nil, max_self,
      show (10 : ℝ) / 10 = 1 by norm_num, Real.one_rpow]
    ring
  have hhist : calculate_historical_weighting [] ⟨0, 0⟩ 10 = 0 := rfl
  have hpre1 : seismicPreRisk defaultConfig ⟨0, 0⟩
      [⟨⟨1, 0⟩, 10, 100000⟩, ⟨⟨1, 0⟩, 10, 1⟩] [] 1 0 =
      Real.exp (-3 * (calculate_distance_km ⟨0, 0⟩ ⟨1, 0⟩ / 100000)) * 40 + 35 := by
    unfold seismicPreRisk seismicBaseRisk
    rw [hfps1, hmag 100000 1, hhist]
    simp only [defaultConfig]
    ring
  have hpre2 : seismicPreRisk defaultConfig ⟨0, 0⟩
      [⟨⟨1, 0⟩, 10, 1⟩, ⟨⟨1, 0⟩, 10, 100000⟩] [] 1 0 = 35 := by
    unfold seismicPreRisk seismicBaseRisk
    rw [hfps2, hmag 1 100000, hhist]
    simp only [defaultConfig]
    ring
  have hexp_le : Real.exp (-3 * (calculate_distance_km ⟨0, 0⟩ ⟨1, 0⟩ / 100000)) ≤ 1 :=
    Real.exp_le_one_iff.mpr (by linarith)
  have hexp_ge : (0.994 : ℝ) ≤
      Real.exp (-3 * (calculate_distance_km ⟨0, 0⟩ ⟨1, 0⟩ / 100000)) := by
    have h1 := Real.add_one_le_exp (-3 * (calculate_distance_km ⟨0, 0⟩ ⟨1, 0⟩ / 100000))
    linarith
  show round2 (clamp100 (seismicPreRisk defaultConfig ⟨0, 0⟩
      [⟨⟨1, 0⟩, 10, 100000⟩, ⟨⟨1, 0⟩, 10, 1⟩] [] 1 0)) ≠
    round2 (clamp100 (seismicPreRisk defaultConfig ⟨0, 0⟩
      [⟨⟨1, 0⟩, 10, 1⟩, ⟨⟨1, 0⟩, 10, 100000⟩] [] 1 0))
  rw [hpre1, hpre2]
  rw [clamp100_of_bounds (by linarith) (by linarith),
    clamp100_of_bounds (by norm_num) (by norm_num)]
  have h35 : round2 (35 : ℝ) = 35 := by
    rw [round2_of_mul_100_int 35 3500 (by norm_num)]
    norm_num
  have h747 : round2 (74.7 : ℝ) = 74.7 := by
    rw [round2_of_mul_100_int 74.7 7470 (by norm_num)]
    norm_num
  have hmono := round2_le_round2
    (show (74.7 : ℝ) ≤ Real.exp (-3 * (calculate_distance_km ⟨0, 0⟩ ⟨1, 0⟩ / 100000)) *
      40 + 35 by linarith)
  rw [h747] at hmono
  rw [h35]
  intro heq
  rw [heq] at hmono
  linarith

theorem maxI_spec (f0 : HazardSource) (rest : List HazardSource) :
    (∀ f ∈ f0 :: rest,
      f.intensity ≤ rest.foldl (fun m f => max m f.intensity) f0.intensity) ∧
    ∃ f ∈ f0 :: rest,
      rest.foldl (fun m f => max m f.intensity) f0.intensity = f.intensity := by
  constructor
  · intro f hf
    rcases List.mem_cons.mp hf with rfl | hf'
    · exact le_foldl_maxI rest f.intensity
    · exact mem_le_foldl_maxI rest f0.intensity f hf'
  · rcases foldl_maxI_cases rest f0.intensity with h | ⟨f, hf, h⟩
    · exact ⟨f0, List.mem_cons_self f0 rest, h⟩
    · exact ⟨f, List.mem_cons_of_mem _ hf, h⟩

theorem magnitude_score_perm {l l' : List HazardSource} (h : l.Perm l') :
    magnitude_score l = magnitude_score l' := by
  cases l with
  | nil =>
    rw [← h.nil_eq]
  | cons f0 rest =>
    cases l' with
    | nil => exact absurd h (by simp)
    | cons g0 rest' =>
      obtain ⟨hub, f, hfmem, hfeq⟩ := maxI_spec f0 rest
      obtain ⟨hub', g, hgmem, hgeq⟩ := maxI_spec g0 rest'
      have hMM : rest.foldl (fun m f => max m f.intensity) f0.intensity =
          rest'.foldl (fun m f => max m f.intensity) g0.intensity := by
        apply le_antisymm
        · rw [hfeq]
          exact hub' f (h.mem_iff.mp hfmem)
        · rw [hgeq]
          exact hub g (h.mem_iff.mpr hgmem)
      unfold magnitude_score
      dsimp only
      rw [hMM]

theorem nearest_spec (location : GeographicPoint) (f0 : HazardSource)
    (rest : List HazardSource) :
    (∀ f ∈ f0 :: rest,
      (rest.foldl (nearestFaultStep location)
        (calculate_distance_km location f0.location, f0.intensity)).1 ≤
        calculate_distance_km location f.location) ∧
    ∃ f ∈ f0 :: rest,
      rest.foldl (nearestFaultStep location)
        (calculate_distance_km location f0.location, f0.intensity) =
        (calculate_distance_km location f.location, f.intensity) := by
  constructor
  · intro f hf
    rcases List.mem_cons.mp hf with rfl | hf'
    · exact nearestFold_fst_le_acc location rest _
    · exact nearestFold_fst_le_mem location rest _ f hf'
  · rcases nearestFold_cases location rest
        (calculate_distance_km location f0.location, f0.intensity) with h | ⟨f, hf, h⟩
    · exact ⟨f0, List.mem_cons_self f0 rest, h⟩
    · exact ⟨f, List.mem_cons_of_mem _ hf, h⟩

theorem fault_proximity_score_perm (location : GeographicPoint) (r : ℝ)
    {l l' : List HazardSource} (hperm : l.Perm l')
    (hr : ∀ f ∈ l, f.influence_radius_km = r)
    (hd : l.Pairwise fun f g =>
      calculate_distance_km location f.location ≠
        calculate_distance_km location g.location) :
    fault_proximity_score location l = fault_proximity_score location l' := by
  cases l with
  | nil =>
    rw [← hperm.nil_eq]
  | cons f0 rest =>
    cases l' with
    | nil => exact absurd hperm (by simp)
    | cons g0 rest' =>
      obtain ⟨hub, f, hfmem, hfeq⟩ := nearest_spec location f0 rest
      obtain ⟨hub', g, hgmem, hgeq⟩ := nearest_spec location g0 rest'
      have hgl : g ∈ f0 :: rest := hperm.mem_iff.mpr hgmem
      have hdist : calculate_distance_km location f.location =
          calculate_distance_km location g.location := by
        apply le_antisymm
        · have h1 := hub g hgl
          rw [hfeq] at h1
          exact h1
        · have h2 := hub' f (hperm.mem_iff.mp hfmem)
          rw [hgeq] at h2
          exact h2
      have hfg : f = g := by
        by_contra hne
        exact List.Pairwise.forall (fun _ _ hab => Ne.symm hab) hd hfmem hgl hne hdist
      subst hfg
      unfold fault_proximity_score
      dsimp only
      rw [hfeq, hgeq, hr f0 (List.mem_cons_self f0 rest),
        hr g0 (hperm.mem_iff.mpr (List.mem_cons_self g0 rest'))]

/-- **C4 (amended)**: the seismic fault-proximity component uses the nearest
fault's distance and intensity but the influence radius of the *first* fault
in the list, so `calculate_seismic_risk` is invariant under reordering of the
fault-line list only under additional hypotheses: when all faults share one
influence radius and no two faults lie at exactly the same distance from the
assessment location (ties would also change which fault's intensity is kept).
Under those hypotheses every reordering yields the same output. -/
theorem claim_C4_amended (config : AssessmentConfig) (location : GeographicPoint)
    (historical_events : List HistoricalEvent)
    (soil_amplification building_code_rating elapsed_ms r : ℝ)
    (l l' : List HazardSource) (hperm : l.Perm l')
    (hr : ∀ f ∈ l, f.influence_radius_km = r)
    (hd : l.Pairwise fun f g =>
      calculate_distance_km location f.location ≠
        calculate_distance_km location g.location) :
    calculate_seismic_risk config location l historical_events
        soil_amplification building_code_rating elapsed_ms =
      calculate_seismic_risk config location l' historical_events
        soil_amplification building_code_rating elapsed_ms := by
  have h1 := fault_proximity_score_perm location r hperm hr hd
  have h2 := magnitude_score_perm hperm
  unfold calculate_seismic_risk seismicPreRisk seismicBaseRisk
  rw [h1, h2]

/-- Witness for C4: two faults with a common radius at distinct distances;
swapping them leaves the full output unchanged. -/
theorem claim_C4_witness :
    ([(⟨⟨0, 0⟩, 5, 50⟩ : HazardSource), ⟨⟨1, 0⟩, 7, 50⟩].Perm
      [⟨⟨1, 0⟩, 7, 50⟩, ⟨⟨0, 0⟩, 5, 50⟩]) ∧
    calculate_seismic_risk defaultConfig ⟨0, 0⟩
        [⟨⟨0, 0⟩, 5, 50⟩, ⟨⟨1, 0⟩, 7, 50⟩] [] 1 5 0 =
      calculate_seismic_risk defaultConfig ⟨0, 0⟩
        [⟨⟨1, 0⟩, 7, 50⟩, ⟨⟨0, 0⟩, 5, 50⟩] [] 1 5 0 :=
  ⟨List.Perm.swap _ _ _,
   claim_C4_amended defaultConfig ⟨0, 0⟩ [] 1 5 0 50 _ _ (List.Perm.swap _ _ _)
     (by
       intro f hf
       rcases List.mem_cons.mp hf with rfl | hf'
       · rfl
       · rcases List.mem_cons.mp hf' with rfl | hf''
         · rfl
         · simp at hf'')
     (by
       refine List.Pairwise.cons ?_ (List.pairwise_singleton _ _)
       intro b hb
       rcases List.mem_singleton.mp hb with rfl
       show calculate_distance_km ⟨0, 0⟩ ⟨0, 0⟩ ≠ calculate_distance_km ⟨0, 0⟩ ⟨1, 0⟩
       rw [distance_self, distance_0_0_1_0]
       have := Real.pi_pos
       intro hcontra
       nlinarith)⟩

/-! ## C7: association-list lemmas for the in-memory cache -/

theorem dictLookup_eq_none_iff {K V : Type} [DecidableEq K]
    (l : List (K × V)) (k : K) :
    dictLookup l k = none ↔ k ∉ l.map Prod.fst := by
  induction l with
  | nil => simp [dictLookup]
  | cons p t ih =>
    obtain ⟨a, b⟩ := p
    by_cases h : a = k
    · subst h
      simp [dictLookup]
    · simp [dictLookup, h, ih, Ne.symm h]

theorem map_fst_dictErase {K V : Type} [DecidableEq K]
    (l : List (K × V)) (k : K) :
    (dictErase l k).map Prod.fst = (l.map Prod.fst).erase k := by
  induction l with
  | nil => rfl
  | cons p t ih =>
    obtain ⟨a, b⟩ := p
    by_cases h : a = k
    · subst h
      simp [dictErase, List.erase_cons_head]
    · simp [dictErase, h, List.erase_cons, ih]

theorem dictLookup_cons {K V : Type} [DecidableEq K]
    (a : K) (b : V) (t : List (K × V)) (k : K) :
    dictLookup ((a, b) :: t) k = if a = k then some b else dictLookup t k := rfl

theorem dictErase_cons {K V : Type} [DecidableEq K]
    (a : K) (b : V) (t : List (K × V)) (k : K) :
    dictErase ((a, b) :: t) k = if a = k then t else (a, b) :: dictErase t k := rfl

theorem dictInsert_cons {K V : Type} [DecidableEq K]
    (a : K) (b : V) (t : List (K × V)) (k : K) (v : V) :
    dictInsert ((a, b) :: t) k v =
      if a = k then (a, v) :: t else (a, b) :: dictInsert t k v := rfl

theorem dictLookup_dictErase_ne {K V : Type} [DecidableEq K]
    {l : List (K × V)} {j k : K} (h : j ≠ k) :
    dictLookup (dictErase l k) j = dictLookup l j := by
  induction l with
  | nil => rfl
  | cons p t ih =>
    obtain ⟨a, b⟩ := p
    by_cases hak : a = k
    · rw [dictErase_cons, if_pos hak, dictLookup_cons,
        if_neg (fun hh : a = j => h (hh ▸ hak ▸ rfl))]
    · rw [dictErase_cons, if_neg hak, dictLookup_cons, dictLookup_cons, ih]

theorem dictLookup_dictErase_self {K V : Type} [DecidableEq K]
    {l : List (K × V)} (h : (l.map Prod.fst).Nodup) (k : K) :
    dictLookup (dictErase l k) k = none := by
  induction l with
  | nil => rfl
  | cons p t ih =>
    obtain ⟨a, b⟩ := p
    simp only [List.map_cons, List.nodup_cons] at h
    by_cases hak : a = k
    · subst hak
      rw [show dictErase ((a, b) :: t) a = t from by simp [dictErase]]
      exact (dictLookup_eq_none_iff t a).mpr h.1
    · rw [show dictErase ((a, b) :: t) k = (a, b) :: dictErase t k from by
        simp [dictErase, hak]]
      rw [show dictLookup ((a, b) :: dictErase t k) k =
        dictLookup (dictErase t k) k from by simp [dictLookup, hak]]
      exact ih h.2

theorem dictErase_length_le {K V : Type} [DecidableEq K]
    (l : List (K × V)) (k : K) : (dictErase l k).length ≤ l.length := by
  induction l with
  | nil => exact le_rfl
  | cons p t ih =>
    obtain ⟨a, b⟩ := p
    by_cases h : a = k
    · simp [dictErase, h]
    · simp only [dictErase, if_neg h, List.length_cons]
      omega

theorem dictErase_length_of_mem {K V : Type} [DecidableEq K]
    {l : List (K × V)} {k : K} (h : k ∈ l.map Prod.fst) :
    (dictErase l k).length + 1 = l.length := by
  induction l with
  | nil => simp at h
  | cons p t ih =>
    obtain ⟨a, b⟩ := p
    by_cases hak : a = k
    · simp [dictErase, hak]
    · simp only [List.map_cons, List.mem_cons] at h
      rcases h with h | h
      · exact absurd h.symm hak
      · have := ih h
        simp only [dictErase, if_neg hak, List.length_cons]
        omega

theorem dictLookup_dictInsert_self {K V : Type} [DecidableEq K]
    (l : List (K × V)) (k : K) (v : V) :
    dictLookup (dictInsert l k v) k = some v := by
  induction l with
  | nil => simp [dictInsert, dictLookup]
  | cons p t ih =>
    obtain ⟨a, b⟩ := p
    by_cases h : a = k
    · simp [dictInsert, h, dictLookup]
    · simp [dictInsert, h, dictLookup, ih]

theorem dictLookup_dictInsert_ne {K V : Type} [DecidableEq K]
    {l : List (K × V)} {j k : K} (v : V) (h : j ≠ k) :
    dictLookup (dictInsert l k v) j = dictLookup l j := by
  induction l with
  | nil =>
    show dictLookup [(k, v)] j = dictLookup [] j
    rw [dictLookup_cons, if_neg (fun hh : k = j => h (hh ▸ rfl))]
  | cons p t ih =>
    obtain ⟨a, b⟩ := p
    by_cases hak : a = k
    · rw [dictInsert_cons, if_pos hak, dictLookup_cons, dictLookup_cons]
      rw [if_neg (fun hh : a = j => h (hh ▸ hak ▸ rfl)),
        if_neg (fun hh : a = j => h (hh ▸ hak ▸ rfl))]
    · rw [dictInsert_cons, if_neg hak, dictLookup_cons, dictLookup_cons, ih]

theorem map_fst_dictInsert_of_mem {K V : Type} [DecidableEq K]
    {l : List (K × V)} {k : K} (v : V) (h : k ∈ l.map Prod.fst) :
    (dictInsert l k v).map Prod.fst = l.map Prod.fst := by
  induction l with
  | nil => simp at h
  | cons p t ih =>
    obtain ⟨a, b⟩ := p
    by_cases hak : a = k
    · simp [dictInsert, hak]
    · simp only [List.map_cons, List.mem_cons] at h
      rcases h with h | h
      · exact absurd h.symm hak
      · simp [dictInsert, hak, ih h]

theorem map_fst_dictInsert_of_not_mem {K V : Type} [DecidableEq K]
    {l : List (K × V)} {k : K} (v : V) (h : k ∉ l.map Prod.fst) :
    (dictInsert l k v).map Prod.fst = l.map Prod.fst ++ [k] := by
  induction l with
  | nil => rfl
  | cons p t ih =>
    obtain ⟨a, b⟩ := p
    simp only [List.map_cons, List.mem_cons] at h
    push_neg at h
    rw [dictInsert_cons, if_neg (fun hh : a = k => h.1 hh.symm)]
    simp only [List.map_cons, ih h.2, List.cons_append]

theorem dictLookup_append_of_none {K V : Type} [DecidableEq K]
    {l₁ : List (K × V)} (l₂ : List (K × V)) {k : K}
    (h : dictLookup l₁ k = none) :
    dictLookup (l₁ ++ l₂) k = dictLookup l₂ k := by
  induction l₁ with
  | nil => rfl
  | cons p t ih =>
    obtain ⟨a, b⟩ := p
    by_cases hak : a = k
    · simp [dictLookup, hak] at h
    · simp only [dictLookup, if_neg hak] at h
      simp [dictLookup, hak, ih h]

theorem dictLookup_append_of_some {K V : Type} [DecidableEq K]
    {l₁ : List (K × V)} (l₂ : List (K × V)) {k : K} {v : V}
    (h : dictLookup l₁ k = some v) :
    dictLookup (l₁ ++ l₂) k = some v := by
  induction l₁ with
  | nil => simp [dictLookup] at h
  | cons p t ih =>
    obtain ⟨a, b⟩ := p
    by_cases hak : a = k
    · simp only [dictLookup, if_pos hak] at h
      simp [dictLookup, hak, h]
    · simp only [dictLookup, if_neg hak] at h
      simp [dictLookup, hak, ih h]

theorem touch_nodup {K : Type} [DecidableEq K] {ord : List K} (h : ord.Nodup)
    (k : K) : (ord.erase k ++ [k]).Nodup := by
  refine (h.erase k).append (List.nodup_singleton k) ?_
  intro a ha hb
  rw [List.mem_singleton] at hb
  subst hb
  exact h.not_mem_erase ha

theorem touch_lookup_ne {K : Type} [DecidableEq K] (la : List (K × ℕ)) (c : ℕ)
    {x k : K} (h : x ≠ k) :
    dictLookup (dictErase la k ++ [(k, c)]) x = dictLookup la x := by
  cases hcase : dictLookup (dictErase la k) x with
  | some v =>
    rw [dictLookup_append_of_some _ hcase, ← dictLookup_dictErase_ne h, hcase]
  | none =>
    have h2 : dictLookup la x = none := by
      rw [← dictLookup_dictErase_ne h, hcase]
    rw [dictLookup_append_of_none _ hcase, h2, dictLookup_cons,
      if_neg (fun hh : k = x => h (hh ▸ rfl))]
    rfl

theorem touch_lookup_self {K : Type} [DecidableEq K] {la : List (K × ℕ)}
    (h : (la.map Prod.fst).Nodup) (k : K) (c : ℕ) :
    dictLookup (dictErase la k ++ [(k, c)]) k = some c := by
  rw [dictLookup_append_of_none _ (dictLookup_dictErase_self h k),
    dictLookup_cons, if_pos rfl]

theorem touch_la_nodup {K : Type} [DecidableEq K] {la : List (K × ℕ)}
    (h : (la.map Prod.fst).Nodup) (k : K) (c : ℕ) :
    ((dictErase la k ++ [(k, c)]).map Prod.fst).Nodup := by
  simp only [List.map_append, map_fst_dictErase, List.map_cons, List.map_nil]
  exact touch_nodup h k

theorem touch_la_order {K : Type} [DecidableEq K] {ord : List K}
    {la : List (K × ℕ)} {c : ℕ}
    (hord : ∀ x ∈ ord, ∃ n, dictLookup la x = some n ∧ n < c)
    (hnodup : ord.Nodup) (hla : (la.map Prod.fst).Nodup) (k : K) :
    ∀ x ∈ ord.erase k ++ [k],
      ∃ n, dictLookup (dictErase la k ++ [(k, c)]) x = some n ∧ n < c + 1 := by
  intro x hx
  rcases List.mem_append.mp hx with hx | hx
  · have hxo : x ∈ ord := (List.erase_sublist k ord).subset hx
    have hxk : x ≠ k := by
      intro hh
      subst hh
      exact hnodup.not_mem_erase hx
    obtain ⟨n, hn, hnc⟩ := hord x hxo
    exact ⟨n, by rw [touch_lookup_ne la c hxk, hn], by omega⟩
  · rw [List.mem_singleton] at hx
    subst hx
    exact ⟨c, touch_lookup_self hla x c, by omega⟩

theorem touch_sorted {K : Type} [DecidableEq K] {ord : List K}
    {la : List (K × ℕ)} {c : ℕ}
    (hsorted : ord.Pairwise fun a b =>
      (dictLookup la a).getD 0 < (dictLookup la b).getD 0)
    (hord : ∀ x ∈ ord, ∃ n, dictLookup la x = some n ∧ n < c)
    (hnodup : ord.Nodup) (hla : (la.map Prod.fst).Nodup) (k : K) :
    (ord.erase k ++ [k]).Pairwise fun a b =>
      (dictLookup (dictErase la k ++ [(k, c)]) a).getD 0 <
        (dictLookup (dictErase la k ++ [(k, c)]) b).getD 0 := by
  rw [List.pairwise_append]
  refine ⟨?_, List.pairwise_singleton _ _, ?_⟩
  · refine (hsorted.sublist (List.erase_sublist k ord)).imp_of_mem ?_
    intro a b ha hb hab
    have hak : a ≠ k := fun hh => hnodup.not_mem_erase (hh ▸ ha)
    have hbk : b ≠ k := fun hh => hnodup.not_mem_erase (hh ▸ hb)
    rw [touch_lookup_ne la c hak, touch_lookup_ne la c hbk]
    exact hab
  · intro a ha b hb
    rw [List.mem_singleton] at hb
    subst hb
    have hax : a ∈ ord := (List.erase_sublist b ord).subset ha
    have hak : a ≠ b := fun hh => hnodup.not_mem_erase (hh ▸ ha)
    obtain ⟨n, hn, hnc⟩ := hord a hax
    rw [touch_lookup_ne la c hak, hn, touch_lookup_self hla b c]
    simpa using hnc

theorem dictInsert_length_of_mem {K V : Type} [DecidableEq K]
    {l : List (K × V)} {k : K} (v : V) (h : k ∈ l.map Prod.fst) :
    (dictInsert l k v).length = l.length := by
  have h1 : ((dictInsert l k v).map Prod.fst).length = (l.map Prod.fst).length := by
    rw [map_fst_dictInsert_of_mem v h]
  rwa [List.length_map, List.length_map] at h1

theorem dictInsert_length_of_not_mem {K V : Type} [DecidableEq K]
    {l : List (K × V)} {k : K} (v : V) (h : k ∉ l.map Prod.fst) :
    (dictInsert l k v).length = l.length + 1 := by
  have h1 : ((dictInsert l k v).map Prod.fst).length =
      (l.map Prod.fst ++ [k]).length := by
    rw [map_fst_dictInsert_of_not_mem v h]
  simpa using h1

theorem mem_of_dictLookup_some {K V : Type} [DecidableEq K]
    {l : List (K × V)} {k : K} {v : V} (h : dictLookup l k = some v) :
    k ∈ l.map Prod.fst := by
  by_contra hmem
  have h2 := (dictLookup_eq_none_iff l k).mpr hmem
  rw [h] at h2
  exact Option.noConfusion h2

theorem inv_init (K V : Type) [DecidableEq K] (m : ℕ) (t : ℚ) :
    CacheInv (initCache K V m t) := by
  refine ⟨List.nodup_nil, List.Perm.nil, ?_, List.nodup_nil, List.Pairwise.nil, ?_⟩
  · intro x hx
    simp [initCache] at hx
  · intro _
    exact Nat.zero_le m

theorem inv_delete {K V : Type} [DecidableEq K] {s : CacheState K V}
    (h : CacheInv s) (k : K) : CacheInv (cacheDelete s k) := by
  obtain ⟨h1, h2, h3, h4, h5, h6⟩ := h
  refine ⟨h1.erase k, ?_, ?_, ?_, ?_, ?_⟩
  · show (s.access_order.erase k).Perm (cacheKeys (cacheDelete s k))
    rw [show cacheKeys (cacheDelete s k) = (cacheKeys s).erase k from by
      show (dictErase s.cache k).map Prod.fst = (s.cache.map Prod.fst).erase k
      exact map_fst_dictErase s.cache k]
    exact h2.erase k
  · intro x hx
    show ∃ n, dictLookup (dictErase s.last_access k) x = some n ∧ n < s.clock
    have hx' : x ∈ s.access_order := (List.erase_sublist k s.access_order).subset hx
    have hxk : x ≠ k := fun hh => h1.not_mem_erase (hh ▸ hx)
    obtain ⟨n, hn, hnc⟩ := h3 x hx'
    exact ⟨n, by rw [dictLookup_dictErase_ne hxk, hn], hnc⟩
  · show ((dictErase s.last_access k).map Prod.fst).Nodup
    rw [map_fst_dictErase]
    exact h4.erase k
  · show (s.access_order.erase k).Pairwise _
    refine (h5.sublist (List.erase_sublist k s.access_order)).imp_of_mem ?_
    intro a b ha hb hab
    have hak : a ≠ k := fun hh => h1.not_mem_erase (hh ▸ ha)
    have hbk : b ≠ k := fun hh => h1.not_mem_erase (hh ▸ hb)
    show (dictLookup (dictErase s.last_access k) a).getD 0 <
      (dictLookup (dictErase s.last_access k) b).getD 0
    rw [dictLookup_dictErase_ne hak, dictLookup_dictErase_ne hbk]
    exact hab
  · intro hm
    exact le_trans (dictErase_length_le _ _) (h6 hm)

theorem inv_touchState {K V : Type} [DecidableEq K] {s : CacheState K V}
    (h : CacheInv s) (k : K) (hmem : k ∈ s.access_order) :
    CacheInv { s with access_order := s.access_order.erase k ++ [k],
                      last_access := dictErase s.last_access k ++ [(k, s.clock)],
                      clock := s.clock + 1 } := by
  obtain ⟨h1, h2, h3, h4, h5, h6⟩ := h
  refine ⟨touch_nodup h1 k, ?_, ?_, touch_la_nodup h4 k s.clock, ?_, ?_⟩
  · show (s.access_order.erase k ++ [k]).Perm (cacheKeys s)
    exact ((List.perm_append_singleton k _).trans
      (List.perm_cons_erase hmem).symm).trans h2
  · exact touch_la_order h3 h1 h4 k
  · exact touch_sorted h5 h3 h1 h4 k
  · intro hm
    exact h6 hm

theorem inv_get {K V : Type} [DecidableEq K] {s : CacheState K V}
    (h : CacheInv s) (now : ℚ) (k : K) : CacheInv (cacheGet s now k).2 := by
  unfold cacheGet
  cases hlk : dictLookup s.cache k with
  | none => exact h
  | some item =>
    dsimp only
    split
    · exact inv_delete h k
    · exact inv_touchState h k
        (h.order_perm.mem_iff.mpr (mem_of_dictLookup_some hlk))

theorem inv_evict {K V : Type} [DecidableEq K] {s : CacheState K V}
    (h : CacheInv s) (k : K) : CacheInv (cacheEvictIfFull s k) := by
  unfold cacheEvictIfFull
  split
  · cases hord : s.access_order with
    | nil => exact h
    | cons lru rest =>
      dsimp only
      have heq : ({ s with
              cache := dictErase s.cache lru,
              access_order := rest,
              last_access := dictErase s.last_access lru } : CacheState K V) =
          cacheDelete s lru := by
        unfold cacheDelete
        rw [hord, List.erase_cons_head]
      rw [heq]
      exact inv_delete h lru
  · exact h

theorem inv_store {K V : Type} [DecidableEq K] {s1 : CacheState K V}
    (h : CacheInv s1) (k : K) (item : CacheItem V)
    (hsize : 1 ≤ s1.max_size → (dictInsert s1.cache k item).length ≤ s1.max_size) :
    CacheInv (cacheStore s1 k item) := by
  obtain ⟨h1, h2, h3, h4, h5, h6⟩ := h
  refine ⟨touch_nodup h1 k, ?_, ?_, touch_la_nodup h4 k s1.clock, ?_, ?_⟩
  · show (s1.access_order.erase k ++ [k]).Perm (cacheKeys (cacheStore s1 k item))
    by_cases hmem : k ∈ cacheKeys s1
    · rw [show cacheKeys (cacheStore s1 k item) = cacheKeys s1 from
        map_fst_dictInsert_of_mem item hmem]
      exact ((List.perm_append_singleton k _).trans
        (List.perm_cons_erase (h2.mem_iff.mpr hmem)).symm).trans h2
    · rw [show cacheKeys (cacheStore s1 k item) = cacheKeys s1 ++ [k] from
        map_fst_dictInsert_of_not_mem item hmem]
      have hnotord : k ∉ s1.access_order := fun hh => hmem (h2.mem_iff.mp hh)
      rw [List.erase_of_not_mem hnotord]
      exact h2.append_right [k]
  · exact touch_la_order h3 h1 h4 k
  · exact touch_sorted h5 h3 h1 h4 k
  · exact hsize

theorem evict_max {K V : Type} [DecidableEq K] (s : CacheState K V) (k : K) :
    (cacheEvictIfFull s k).max_size = s.max_size := by
  unfold cacheEvictIfFull
  split
  · cases s.access_order <;> rfl
  · rfl

theorem evict_ttl {K V : Type} [DecidableEq K] (s : CacheState K V) (k : K) :
    (cacheEvictIfFull s k).default_ttl = s.default_ttl := by
  unfold cacheEvictIfFull
  split
  · cases s.access_order <;> rfl
  · rfl

theorem inv_set {K V : Type} [DecidableEq K] {s : CacheState K V}
    (h : CacheInv s) (now : ℚ) (k : K) (v : V) (ttl : Option ℚ) :
    CacheInv (cacheSet s now k v ttl) := by
  unfold cacheSet
  dsimp only
  apply inv_store (inv_evict h k)
  intro hm
  rw [evict_max] at hm
  by_cases hcond : s.max_size ≤ s.cache.length ∧ (dictLookup s.cache k).isNone = true
  · cases hord : s.access_order with
    | nil =>
      exfalso
      have hlen : s.access_order.length = s.cache.length := by
        rw [h.order_perm.length_eq]
        exact (List.length_map s.cache Prod.fst)
      rw [hord] at hlen
      simp at hlen
      omega
    | cons lru rest =>
      have hs1 : cacheEvictIfFull s k =
          { s with
            cache := dictErase s.cache lru,
            access_order := rest,
            last_access := dictErase s.last_access lru } := by
        unfold cacheEvictIfFull
        rw [if_pos hcond, hord]
      have hlru_keys : lru ∈ cacheKeys s :=
        h.order_perm.mem_iff.mp (by rw [hord]; exact List.mem_cons_self lru rest)
      have hlen1 : (dictErase s.cache lru).length + 1 = s.cache.length :=
        dictErase_length_of_mem hlru_keys
      have hkfresh : dictLookup s.cache k = none := by
        rcases hcond with ⟨_, hc2⟩
        rwa [Option.isNone_iff_eq_none] at hc2
      have hknotin : k ∉ cacheKeys (cacheEvictIfFull s k) := by
        rw [hs1]
        show k ∉ (dictErase s.cache lru).map Prod.fst
        rw [map_fst_dictErase]
        intro hmem
        exact ((dictLookup_eq_none_iff s.cache k).mp hkfresh)
          ((List.erase_sublist lru (cacheKeys s)).subset hmem)
      rw [evict_max]
      rw [dictInsert_length_of_not_mem _ hknotin, hs1]
      have := h.size_le hm
      dsimp only
      omega
  · have hs1 : cacheEvictIfFull s k = s := by
      unfold cacheEvictIfFull
      rw [if_neg hcond]
    rw [evict_max, hs1]
    by_cases hmem : k ∈ cacheKeys s
    · rw [dictInsert_length_of_mem _ hmem]
      exact h.size_le hm
    · rw [dictInsert_length_of_not_mem _ hmem]
      push_neg at hcond
      have hc2 : (dictLookup s.cache k).isNone = true := by
        rw [Option.isNone_iff_eq_none, dictLookup_eq_none_iff]
        exact hmem
      have hnA : ¬ s.max_size ≤ s.cache.length := fun hA => hcond hA hc2
      omega

theorem inv_step {K V : Type} [DecidableEq K] {s : CacheState K V}
    (h : CacheInv s) (op : CacheOp K V) : CacheInv (cacheStep s op) := by
  cases op with
  | get now key => exact inv_get h now key
  | set now key value ttl => exact inv_set h now key value ttl
  | del key => exact inv_delete h key

theorem inv_foldl {K V : Type} [DecidableEq K] (ops : List (CacheOp K V)) :
    ∀ s : CacheState K V, CacheInv s → CacheInv (ops.foldl cacheStep s) := by
  induction ops with
  | nil => intro s h; exact h
  | cons op rest ih => intro s h; exact ih (cacheStep s op) (inv_step h op)

theorem inv_run {K V : Type} [DecidableEq K] (m : ℕ) (t : ℚ)
    (ops : List (CacheOp K V)) : CacheInv (runCache m t ops) :=
  inv_foldl ops _ (inv_init K V m t)

theorem step_max {K V : Type} [DecidableEq K] (s : CacheState K V)
    (op : CacheOp K V) : (cacheStep s op).max_size = s.max_size := by
  cases op with
  | get now key =>
    show (cacheGet s now key).2.max_size = s.max_size
    unfold cacheGet
    cases hlk : dictLookup s.cache key with
    | none => rfl
    | some item =>
      dsimp only
      split <;> rfl
  | set now key value ttl =>
    show (cacheSet s now key value ttl).max_size = s.max_size
    unfold cacheSet cacheStore
    dsimp only
    exact evict_max s key
  | del key => rfl

theorem run_max {K V : Type} [DecidableEq K] (m : ℕ) (t : ℚ)
    (ops : List (CacheOp K V)) : (runCache m t ops).max_size = m := by
  suffices hgen : ∀ s : CacheState K V, (ops.foldl cacheStep s).max_size = s.max_size by
    exact hgen (initCache K V m t)
  induction ops with
  | nil => intro s; rfl
  | cons op rest ih => intro s; rw [List.foldl_cons, ih, step_max]

theorem evict_lru {K V : Type} [DecidableEq K] {s : CacheState K V}
    (hinv : CacheInv s) (hm : 1 ≤ s.max_size) (now : ℚ) (k : K) (v : V)
    (ttl : Option ℚ) (hfresh : dictLookup s.cache k = none)
    (hfull : s.cache.length = s.max_size) :
    ∃ lru ∈ cacheKeys s,
      dictLookup (cacheSet s now k v ttl).cache lru = none ∧
      (∀ j ∈ cacheKeys s, j ≠ lru →
        lastAccessOf s lru < lastAccessOf s j ∧
        dictLookup (cacheSet s now k v ttl).cache j = dictLookup s.cache j) ∧
      dictLookup (cacheSet s now k v ttl).cache k ≠ none := by
  have hlen : s.access_order.length = s.cache.length := by
    rw [hinv.order_perm.length_eq]
    exact List.length_map s.cache Prod.fst
  cases hord : s.access_order with
  | nil =>
    exfalso
    rw [hord] at hlen
    simp at hlen
    omega
  | cons lru rest =>
    have hlru_ord : lru ∈ s.access_order := by
      rw [hord]
      exact List.mem_cons_self lru rest
    have hlru_keys : lru ∈ cacheKeys s := hinv.order_perm.mem_iff.mp hlru_ord
    have hknotmem : k ∉ cacheKeys s := (dictLookup_eq_none_iff s.cache k).mp hfresh
    have hkne : k ≠ lru := fun hh => hknotmem (hh ▸ hlru_keys)
    have hcond : s.max_size ≤ s.cache.length ∧
        (dictLookup s.cache k).isNone = true := by
      constructor
      · omega
      · rw [hfresh]
        rfl
    have hs1 : cacheEvictIfFull s k =
        { s with
          cache := dictErase s.cache lru,
          access_order := rest,
          last_access := dictErase s.last_access lru } := by
      unfold cacheEvictIfFull
      rw [if_pos hcond, hord]
    have hL : (cacheSet s now k v ttl).cache =
        dictInsert (dictErase s.cache lru) k
          ⟨v, now + (match ttl with
            | none => s.default_ttl
            | some t => if t = 0 then s.default_ttl else t), now⟩ := by
      unfold cacheSet cacheStore
      dsimp only
      rw [hs1]
    have hkeys_nodup : (cacheKeys s).Nodup :=
      hinv.order_perm.nodup_iff.mp hinv.order_nodup
    refine ⟨lru, hlru_keys, ?_, ?_, ?_⟩
    · rw [hL, dictLookup_dictInsert_ne _ (Ne.symm hkne)]
      exact dictLookup_dictErase_self hkeys_nodup lru
    · intro j hj hjlru
      constructor
      · have hj_ord : j ∈ s.access_order := hinv.order_perm.mem_iff.mpr hj
        rw [hord] at hj_ord
        rcases List.mem_cons.mp hj_ord with rfl | hjrest
        · exact absurd rfl hjlru
        · have hs := hinv.sorted
          rw [hord] at hs
          exact (List.pairwise_cons.mp hs).1 j hjrest
      · have hjk : j ≠ k := fun hh => hknotmem (hh ▸ hj)
        rw [hL, dictLookup_dictInsert_ne _ hjk, dictLookup_dictErase_ne hjlru]
    · rw [hL, dictLookup_dictInsert_self]
      simp

/-- **C7**: for every sequence of get/set/delete operations on the in-memory
cache (with a positive size bound, default 1000), the store never holds more
than `max_size` entries; and a set of a new key while the store holds exactly
`max_size` entries evicts exactly the least-recently-used key — the stored key
whose ghost recency stamp (most recent successful get or set) is strictly
smallest — leaving every other entry in place and storing the new key. -/
theorem claim_C7 {K V : Type} [DecidableEq K] (max_size : ℕ) (default_ttl : ℚ)
    (ops : List (CacheOp K V)) (hmax : 1 ≤ max_size) :
    (runCache max_size default_ttl ops).cache.length ≤ max_size ∧
    ∀ (now : ℚ) (k : K) (v : V) (ttl : Option ℚ),
      dictLookup (runCache max_size default_ttl ops).cache k = none →
      (runCache max_size default_ttl ops).cache.length = max_size →
      ∃ lru ∈ cacheKeys (runCache max_size default_ttl ops),
        dictLookup (cacheSet (runCache max_size default_ttl ops) now k v
          ttl).cache lru = none ∧
        (∀ j ∈ cacheKeys (runCache max_size default_ttl ops), j ≠ lru →
          lastAccessOf (runCache max_size default_ttl ops) lru <
            lastAccessOf (runCache max_size default_ttl ops) j ∧
          dictLookup (cacheSet (runCache max_size default_ttl ops) now k v
            ttl).cache j =
            dictLookup (runCache max_size default_ttl ops).cache j) ∧
        dictLookup (cacheSet (runCache max_size default_ttl ops) now k v
          ttl).cache k ≠ none := by
  have hinv := inv_run (K := K) (V := V) max_size default_ttl ops
  have hmax' := run_max (K := K) (V := V) max_size default_ttl ops
  constructor
  · have h := hinv.size_le (by rw [hmax']; exact hmax)
    rwa [hmax'] at h
  · intro now k v ttl hfresh hfull
    exact evict_lru hinv (by rw [hmax']; exact hmax) now k v ttl hfresh
      (by rw [hmax']; exact hfull)

/-- Witness for C7 with natural-number keys and values, bound 2, and the empty
operation sequence. -/
theorem claim_C7_witness :
    1 ≤ 2 ∧
    ((runCache (K := ℕ) (V := ℕ) 2 60 []).cache.length ≤ 2 ∧
    ∀ (now : ℚ) (k : ℕ) (v : ℕ) (ttl : Option ℚ),
      dictLookup (runCache (K := ℕ) (V := ℕ) 2 60 []).cache k = none →
      (runCache (K := ℕ) (V := ℕ) 2 60 []).cache.length = 2 →
      ∃ lru ∈ cacheKeys (runCache (K := ℕ) (V := ℕ) 2 60 []),
        dictLookup (cacheSet (runCache (K := ℕ) (V := ℕ) 2 60 []) now k v
          ttl).cache lru = none ∧
        (∀ j ∈ cacheKeys (runCache (K := ℕ) (V := ℕ) 2 60 []), j ≠ lru →
          lastAccessOf (runCache (K := ℕ) (V := ℕ) 2 60 []) lru <
            lastAccessOf (runCache (K := ℕ) (V := ℕ) 2 60 []) j ∧
          dictLookup (cacheSet (runCache (K := ℕ) (V := ℕ) 2 60 []) now k v
            ttl).cache j =
            dictLookup (runCache (K := ℕ) (V := ℕ) 2 60 []).cache j) ∧
        dictLookup (cacheSet (runCache (K := ℕ) (V := ℕ) 2 60 []) now k v
          ttl).cache k ≠ none) :=
  ⟨by norm_num, claim_C7 2 60 [] (by norm_num)⟩
